import Mathlib

/-!
Verification development for the pogobuf RPC client
(`src/pogobuf/pogobuf.client.js`, `src/pogobuf/pogobuf.utils.js`).

The JavaScript source is shallowly embedded: client state is an explicit
`Session` record, promise-based control flow becomes explicit state passing,
and the recursive retry / redirect / throttle loops are run by a fuel-indexed
interpreter. Randomness (`Math.random` draws) and the external collaborators
(protobuf decoders, the signature provider, the re-login flow) are inputs,
supplied through an `Env` record. Machine integers are modelled as `Int`/`Nat`.
-/

namespace Pogobuf

/-! ## JavaScript value model (for decoded protobuf responses)

`JsVal` models the JavaScript values that appear in decoded response
messages: primitives, 64-bit `Long.js` values (`long`), plain objects
(ordered association lists, as JS object keys are ordered) and arrays.
-/

inductive JsVal where
  | und
  | nul
  | boolean (b : Bool)
  | num (n : Int)
  | str (s : String)
  | long (n : Int)
  | obj (fields : List (String × JsVal))
  | arr (elems : List JsVal)
deriving Repr

/-- `Number.MAX_SAFE_INTEGER` = 2^53 - 1. -/
def MAX_SAFE_INTEGER : Int := 2 ^ 53 - 1

/-- `Number.MIN_SAFE_INTEGER` = -(2^53 - 1). -/
def MIN_SAFE_INTEGER : Int := -(2 ^ 53 - 1)

/-- The conversion applied to a single `Long.js` value by `Utils.convertLongs`
(pogobuf.utils.js lines 270-273 and 278-280):
`object.lessThanOrEqual(Number.MAX_SAFE_INTEGER) && object.greaterThanOrEqual(Number.MIN_SAFE_INTEGER) ? object.toNumber() : object.toString()`.
Within the safe range `toNumber` is exact; otherwise the decimal string is used. -/
def convLong (n : Int) : JsVal :=
  if n ≤ MAX_SAFE_INTEGER ∧ MIN_SAFE_INTEGER ≤ n then .num n else .str (toString n)

mutual

/-- `Utils.convertLongs` (pogobuf.utils.js lines 267-288). A falsy or
non-object argument is returned unchanged; a `Long` is converted; an object
(or array, which in JS is an object whose `for..in` enumeration visits its
elements) has each own property converted in place: `Long` properties are
converted, `typeof === 'object'` properties are recursed into (which for the
`null` property value returns it unchanged, as `convertLongs null = null`),
and all other properties are left untouched. -/
def convertLongs : JsVal → JsVal
  | .long n => convLong n
  | .obj fields => .obj (convertLongsFields fields)
  | .arr elems => .arr (convertLongsElems elems)
  | v => v

def convertLongsFields : List (String × JsVal) → List (String × JsVal)
  | [] => []
  | (k, v) :: rest => (k, convertLongs v) :: convertLongsFields rest

def convertLongsElems : List JsVal → List JsVal
  | [] => []
  | v :: rest => convertLongs v :: convertLongsElems rest

end

/-! ## Client data model (pogobuf.client.js) -/

/-- `INITIAL_ENDPOINT` (pogobuf.client.js line 26). -/
def INITIAL_ENDPOINT : String := "https://pgorelease.nianticlabs.com/plfe/rpc"

/-- `INITIAL_PTR8` (pogobuf.client.js line 27). -/
def INITIAL_PTR8 : String := "90f6a704505bccac73cec99b07794993e6fd5a12"

/-- `POGOProtos.Networking.Requests.RequestType.GET_PLAYER`. -/
def GET_PLAYER : Nat := 2

/-- `POGOProtos.Networking.Requests.RequestType.GET_MAP_OBJECTS`. -/
def GET_MAP_OBJECTS : Nat := 106

/-- `POGOProtos.Networking.Platform.PlatformRequestType.SEND_ENCRYPTED_SIGNATURE`. -/
def SEND_ENCRYPTED_SIGNATURE : Nat := 6

/-- `POGOProtos.Networking.Platform.PlatformRequestType.UNKNOWN_PTR_8`. -/
def UNKNOWN_PTR_8 : Nat := 8

/-- Client options relevant to the RPC engine, with their `defaultOptions`
values (pogobuf.client.js lines 30-48). `authToken = none` models a
null/absent token. -/
structure ClientOptions where
  authType : String
  authToken : Option String
  mapObjectsThrottling : Bool
  mapObjectsMinDelay : Int
  maxTries : Nat
  automaticLongConversion : Bool
  includeRequestTypeInResponse : Bool
deriving Repr, DecidableEq

/-- The `defaultOptions` constant (pogobuf.client.js lines 30-48), restricted
to the fields the RPC engine reads. -/
def defaultOptions : ClientOptions :=
  { authType := "ptc"
    authToken := none
    mapObjectsThrottling := true
    mapObjectsMinDelay := 5000
    maxTries := 5
    automaticLongConversion := true
    includeRequestTypeInResponse := false }

/-- JavaScript truthiness of a possibly-undefined number: `undefined`, `null`
and `0` are falsy. -/
def truthyInt : Option Int → Bool
  | none => false
  | some v => v != 0

/-- JavaScript truthiness of a possibly-undefined string: `undefined`, `null`
and the empty string are falsy. -/
def truthyStr : Option String → Bool
  | none => false
  | some s => s != ""

/-- JavaScript `x || 0` for a possibly-undefined number. -/
def orZero : Option Int → Int
  | none => 0
  | some v => v

/-- A logical request object as produced by the per-opcode wrapper methods:
`{ type, message, responseType }` where `message` is an optional pre-built
protobuf message (its encoding modelled as bytes) and `responseType` an
optional response decoder (modelled as a decoder id resolved through
`Env.decode`). -/
structure RpcRequest where
  type : Nat
  message : Option (List Nat)
  responseType : Option Nat
deriving Repr, DecidableEq

/-- One entry of `envelopeData.requests`: `{ request_type, request_message }`
(pogobuf.client.js lines 953-963); `request_message` is present only when the
request carries a message. -/
structure SubRequest where
  request_type : Nat
  request_message : Option (List Nat)
deriving Repr, DecidableEq

/-- The message carried by a platform request: either an `UnknownPtr8Request`
(a string field) or a `SendEncryptedSignatureRequest` (an encrypted blob). -/
inductive PlatformMsg where
  | ptr8 (message : String)
  | encryptedSignature (sig : List Nat)
deriving Repr, DecidableEq

/-- One entry of `envelope.platform_requests` (pogobuf.client.js
lines 979-988). -/
structure PlatformRequest where
  type : Nat
  request_message : PlatformMsg
deriving Repr, DecidableEq

/-- The `auth_info` field of an outgoing envelope. It is normally the
structured `{ provider, token: { contents, unknown2 } }` object
(pogobuf.client.js lines 934-940); the auto-relogin path of `tryCallRPC`
(line 1226) instead assigns the raw token string to the field, which is
modelled by the `rawToken` constructor. -/
inductive AuthInfoVal where
  | structured (provider : String) (tokenContents : String) (unknown2 : Nat)
  | rawToken (token : String)
deriving Repr, DecidableEq

/-- An outgoing `RequestEnvelope` as assembled by `buildEnvelope`
(pogobuf.client.js lines 907-968) and extended by signing. `latitude` and
`longitude` are optional because the source populates them conditionally;
`request_id` is the `(low, high)` pair of the `Long` produced by
`getRequestID`. -/
structure RequestEnvelope where
  status_code : Nat
  request_id : Int × Int
  ms_since_last_locationfix : Nat
  latitude : Option Int
  longitude : Option Int
  accuracy : Int
  auth_ticket : Option Nat
  auth_info : Option AuthInfoVal
  requests : List SubRequest
  platform_requests : List PlatformRequest
deriving Repr, DecidableEq

/-- The mutable client state: fields of the `Client` closure that the RPC
engine reads or writes (pogobuf.client.js lines 868-874 plus the location
fields set by `setPosition`, `lastMapObjectsCall` set in `init()`, the
`endpoint` set in `init()`, and `batchRequests` managed by the batch
methods). `hasLogin` records whether `self.login` was created during
`init()` (credentials-based auth), which guards the status-102 auto-relogin
branch. -/
structure Session where
  options : ClientOptions
  endpoint : String
  authTicket : Option Nat
  rpcId : Int
  lehmerSeed : Int
  firstGetMapObjects : Bool
  ptr8 : String
  playerLatitude : Option Int
  playerLongitude : Option Int
  playerLocationAccuracy : Option Int
  playerAltitude : Option Int
  lastMapObjectsCall : Int
  batchRequests : Option (List RpcRequest)
  hasLogin : Bool
deriving Repr, DecidableEq

/-- The client state right after construction (pogobuf.client.js
lines 868-874) and the `init()` assignments `lastMapObjectsCall = 0`
(line 109) and `endpoint = INITIAL_ENDPOINT` (line 135): the auth ticket
starts as null, the rpc id counter at 2, the Lehmer generator seeded
with 16807. -/
def mkClient (opts : ClientOptions) (hasLogin : Bool) : Session :=
  { options := opts
    endpoint := INITIAL_ENDPOINT
    authTicket := none
    rpcId := 2
    lehmerSeed := 16807
    firstGetMapObjects := true
    ptr8 := INITIAL_PTR8
    playerLatitude := none
    playerLongitude := none
    playerLocationAccuracy := none
    playerAltitude := none
    lastMapObjectsCall := 0
    batchRequests := none
    hasLogin := hasLogin }

/-- `setPosition` (pogobuf.client.js lines 86-98), scalar-argument form:
stores latitude and longitude as given and applies `|| 0` to accuracy and
altitude. -/
def setPosition (st : Session) (latitude longitude : Option Int)
    (accuracy altitude : Option Int) : Session :=
  { st with
    playerLatitude := latitude
    playerLongitude := longitude
    playerLocationAccuracy := some (orZero accuracy)
    playerAltitude := some (orZero altitude) }

/-! ## Request id generation -/

/-- `Random.prototype.nextInt` of the Lehmer generator
(pogobuf.utils.js lines 295-311): multiplier 16807, modulus `0x7fffffff`,
`mq = floor(modulus / multiplier) = 127773`, `mr = modulus % multiplier = 2836`.
Returns the new seed (which is also the drawn value). -/
def lehmerNextInt (seed : Int) : Int :=
  let mq : Int := 0x7fffffff / 16807
  let mr : Int := 0x7fffffff % 16807
  let temp := 16807 * (seed % mq) - mr * (seed / mq)
  if temp > 0 then temp else temp + 0x7fffffff

/-- `getRequestID` (pogobuf.client.js lines 897-899):
`new Long(self.rpcId++, this.lehmer.nextInt())` — the low word is the
pre-increment rpc id, the high word the next Lehmer draw; both counters are
advanced in the session. -/
def getRequestID (st : Session) : Session × Int × Int :=
  let next := lehmerNextInt st.lehmerSeed
  ({ st with rpcId := st.rpcId + 1, lehmerSeed := next }, st.rpcId, next)

/-! ## Envelope construction -/

/-- The alternatives list for the synthetic accuracy value
(pogobuf.client.js line 919). -/
def accuracyValues : List Int := [5, 5, 5, 5, 10, 10, 10, 30, 30, 50, 65]

/-- The alternatives list for the PTC `unknown2` value
(pogobuf.client.js line 931). -/
def unknown2Values : List Nat := [2, 8, 21, 21, 21, 28, 37, 56, 59, 59, 59]

/-- One batch of `Math.random` draws consumed by a single `buildEnvelope`
call: the `ms_since_last_locationfix` offset in `[0, 900)`, the random list
head `Math.floor(Math.random() * (80 - 66)) + 66` for the accuracy
alternatives, the random index into the 12-element accuracy list, and the
random index into the 11-element `unknown2` list. -/
structure Rand where
  msFix : Fin 900
  accHead : Int
  accIdx : Fin 12
  unknown2Idx : Fin 11
deriving Repr, DecidableEq

/-- `buildEnvelope` (pogobuf.client.js lines 907-968). Sets `status_code` 2,
a fresh request id, a random `ms_since_last_locationfix` in `[100, 1000)`;
populates `latitude`/`longitude` only when the stored player coordinate is
truthy (so an explicitly-set `0` is omitted exactly like an unset one);
`accuracy` is the stored value when truthy, otherwise a random pick from the
unshifted alternatives list. Auth: a stored auth ticket takes precedence;
otherwise a falsy `authType` or `authToken` throws `'No auth info provided'`
(after the request id counters have already been advanced); otherwise a
structured `auth_info` is attached (with a random `unknown2` for PTC, 0
otherwise). The `if (requests)` guard is always taken since a JS array is
truthy, so `requests` are always mapped into sub-requests. The state is
returned alongside because the id counters advance even on the throwing
path. -/
def buildEnvelope (st : Session) (rnd : Rand) (requests : List RpcRequest) :
    Session × Except String RequestEnvelope :=
  let idRes := getRequestID st
  let st1 := idRes.1
  let auth : Except String (Option Nat × Option AuthInfoVal) :=
    if st1.authTicket.isSome then
      .ok (st1.authTicket, none)
    else if st1.options.authType == "" || ¬ truthyStr st1.options.authToken then
      .error "No auth info provided"
    else
      let unknown2 :=
        if st1.options.authType == "ptc" then unknown2Values.getD rnd.unknown2Idx.val 0
        else 0
      .ok (none, some (.structured st1.options.authType (st1.options.authToken.getD "") unknown2))
  match auth with
  | .error e => (st1, .error e)
  | .ok (ticket, info) =>
    (st1, .ok
      { status_code := 2
        request_id := idRes.2
        ms_since_last_locationfix := 100 + rnd.msFix.val
        latitude := if truthyInt st1.playerLatitude then st1.playerLatitude else none
        longitude := if truthyInt st1.playerLongitude then st1.playerLongitude else none
        accuracy :=
          if truthyInt st1.playerLocationAccuracy then orZero st1.playerLocationAccuracy
          else (rnd.accHead :: accuracyValues).getD rnd.accIdx.val 0
        auth_ticket := ticket
        auth_info := info
        requests := requests.map fun r => { request_type := r.type, request_message := r.message }
        platform_requests := [] })

/-! ## Signing -/

/-- The first branch of `needsPtr8` (pogobuf.client.js lines 998-1001):
a single `GET_PLAYER` request. -/
def isSingleGetPlayer : List RpcRequest → Bool
  | [r] => r.type == GET_PLAYER
  | _ => false

/-- `needsPtr8` (pogobuf.client.js lines 997-1014). A single `GET_PLAYER`
request always gets PTR8; any request list containing `GET_MAP_OBJECTS` gets
PTR8 except the first such list in the session (which flips the
`firstGetMapObjects` flag); everything else does not. -/
def needsPtr8 (st : Session) (requests : List RpcRequest) : Session × Bool :=
  if isSingleGetPlayer requests then (st, true)
  else if requests.any (fun r => r.type == GET_MAP_OBJECTS) then
    if st.firstGetMapObjects then ({ st with firstGetMapObjects := false }, false)
    else (st, true)
  else (st, false)

/-- External collaborators and random draws, supplied as inputs:
`decode d bytes` is the response decoder with id `d` applied to a raw
payload (`none` models a decode exception); `sign` is the signature
provider's encrypted blob for the plaintext sub-requests (the hash-server
retry loop of `buildSignedEnvelope` is abstracted as a total signing
function, since no claim concerns signature-provider failures);
`reloginToken` is the token the login provider returns during status-102
auto-relogin; `rands n` is the batch of `Math.random` draws consumed by the
`n`-th `buildEnvelope` call. -/
structure Env where
  decode : Nat → List Nat → Option JsVal
  sign : List SubRequest → List Nat
  reloginToken : String
  rands : Nat → Rand

/-- Errors with which an RPC call can reject. The constructors mirror the
distinct `reject` sites of `tryCallRPC` plus the `buildEnvelope` throw. -/
inductive RpcError where
  | noAuth (msg : String)
  | netError
  | httpStatus (code : Nat)
  | parseEnvelope
  | envelopeError (msg : String)
  | endpointStatus (code : Int)
  | endpointMissing
  | rpcStatus (code : Int)
  | countMismatch
  | decodeFail
deriving Repr, DecidableEq

/-- One entry of `responseEnvelope.platform_returns`; `ptr8Message` is the
`message` field of the decoded `UnknownPtr8Response` when the raw response
decodes (`none` models a falsy decode result). -/
structure PlatformReturn where
  type : Nat
  ptr8Message : Option String
deriving Repr, DecidableEq

/-- An inbound `ResponseEnvelope`, with the fields `tryCallRPC` reads. -/
structure ResponseEnvelope where
  status_code : Int
  request_id : Int
  api_url : Option String
  auth_ticket : Option Nat
  error : Option String
  returns : List (List Nat)
  platform_returns : List PlatformReturn
deriving Repr, DecidableEq

/-- Outcome of parsing a response body
(`POGOProtos.Networking.Envelopes.ResponseEnvelope.decode`, pogobuf.client.js
lines 1160-1172): a clean decode, a partial decode recovered from the
exception's `decoded` field, or an unrecoverable parse failure. -/
inductive BodyParse where
  | ok (renv : ResponseEnvelope)
  | recovered (renv : ResponseEnvelope)
  | fail
deriving Repr, DecidableEq

/-- What one HTTP POST round trip yields: a network-level error or an HTTP
status code with a body. -/
inductive WireResult where
  | netErr
  | http (statusCode : Nat) (body : BodyParse)
deriving Repr, DecidableEq

/-- A recorded network transmission: the (model) time, the endpoint POSTed
to, and the signed envelope sent. -/
structure PostEvent where
  time : Int
  endpoint : String
  envelope : RequestEnvelope
deriving Repr, DecidableEq

/-- Execution state threaded through the interpreter: the client session, the
model clock (advanced only by explicit waits), the remaining server script
(one `WireResult` consumed per POST), the transmissions performed so far, and
the index of the next `Math.random` batch. -/
structure ExecState where
  session : Session
  now : Int
  script : List WireResult
  posts : List PostEvent
  randIdx : Nat
deriving Repr, DecidableEq

/-- The resolved value of a successful call (pogobuf.client.js
lines 1304-1306): the sentinel `true` when no responses were decoded, the
single response, or the array of responses. -/
inductive RpcValue where
  | sentinelTrue
  | one (v : JsVal)
  | many (vs : List JsVal)
deriving Repr

/-- The `resolve` selection at the end of the success path
(pogobuf.client.js lines 1304-1306). -/
def mkRpcValue : List JsVal → RpcValue
  | [] => .sentinelTrue
  | [v] => .one v
  | vs => .many vs

/-- How one `tryCallRPC` attempt settles: a rejection (with the `StopError`
flag), a resolution, or a resubmission `resolve(self.callRPC(requests,
signedEnvelope))` after an optional wait of `delayMs`. -/
inductive StepOut where
  | rejected (stop : Bool) (err : RpcError)
  | resolved (v : RpcValue)
  | resubmit (delayMs : Int) (envelope : RequestEnvelope)
deriving Repr

/-- `buildSignedEnvelope` (pogobuf.client.js lines 1024-1090): builds the
envelope unless one is passed in (a `buildEnvelope` throw becomes a
`StopError`, modelled by the `.error` result, with the already-advanced
session kept); consults `needsPtr8` and possibly appends the PTR8 platform
request; then, unless the envelope carries neither an auth ticket nor auth
info (the unsigned bootstrap case), appends the encrypted-signature platform
request obtained from the signature provider. -/
def buildSignedEnvelope (env : Env) (es : ExecState) (requests : List RpcRequest)
    (envelope? : Option RequestEnvelope) : ExecState × Except RpcError RequestEnvelope :=
  let built : ExecState × Except RpcError RequestEnvelope :=
    match envelope? with
    | some e => (es, .ok e)
    | none =>
      match buildEnvelope es.session (env.rands es.randIdx) requests with
      | (st, .error msg) => ({ es with session := st, randIdx := es.randIdx + 1 }, .error (.noAuth msg))
      | (st, .ok e) => ({ es with session := st, randIdx := es.randIdx + 1 }, .ok e)
  match built with
  | (es1, .error e) => (es1, .error e)
  | (es1, .ok envelope) =>
    let np := needsPtr8 es1.session requests
    let es2 := { es1 with session := np.1 }
    let envelope :=
      if np.2 then
        { envelope with platform_requests :=
            envelope.platform_requests ++ [⟨UNKNOWN_PTR_8, .ptr8 es2.session.ptr8⟩] }
      else envelope
    if envelope.auth_ticket.isNone && envelope.auth_info.isNone then
      (es2, .ok envelope)
    else
      (es2, .ok { envelope with platform_requests :=
          envelope.platform_requests ++
            [⟨SEND_ENCRYPTED_SIGNATURE, .encryptedSignature (env.sign envelope.requests)⟩] })

/-- The auth ticket capture (pogobuf.client.js line 1181):
`if (responseEnvelope.auth_ticket) self.authTicket = responseEnvelope.auth_ticket`. -/
def captureAuthTicket (st : Session) (renv : ResponseEnvelope) : Session :=
  match renv.auth_ticket with
  | some t => { st with authTicket := some t }
  | none => st

/-- The PTR8 platform-return handling (pogobuf.client.js lines 1210-1215):
each `UNKNOWN_PTR_8` return whose response decodes truthy updates
`self.ptr8`. -/
def applyPtr8Returns (st : Session) (prs : List PlatformReturn) : Session :=
  prs.foldl
    (fun s pr =>
      if pr.type == UNKNOWN_PTR_8 then
        match pr.ptr8Message with
        | some m => { s with ptr8 := m }
        | none => s
      else s)
    st

/-- Key update on an ordered association list (JS object update order). -/
def setField : List (String × JsVal) → String → JsVal → List (String × JsVal)
  | [], k, v => [(k, v)]
  | (k1, v1) :: rest, k, v => if k1 == k then (k, v) :: rest else (k1, v1) :: setField rest k v

/-- JS property assignment `message[key] = value` on a decoded message:
replaces an existing key in place, otherwise appends; non-objects are
unchanged. -/
def setProp (v : JsVal) (key : String) (val : JsVal) : JsVal :=
  match v with
  | .obj fields => .obj (setField fields key val)
  | w => w

/-- The response-pairing loop (pogobuf.client.js lines 1265-1285), reached
only when request and return counts agree: requests without a `responseType`
are skipped; each other return is decoded with the request's decoder (a
decode exception is a `StopError`, rejecting the whole call at the first
failure); when `includeRequestTypeInResponse` is set the request type is
attached to the decoded message as `_requestType`. -/
def decodeLoop (dec : Nat → List Nat → Option JsVal) (opts : ClientOptions) :
    List RpcRequest → List (List Nat) → Except RpcError (List JsVal)
  | r :: rs, b :: bs =>
    match r.responseType with
    | none => decodeLoop dec opts rs bs
    | some d =>
      match dec d b with
      | none => .error .decodeFail
      | some m =>
        let m := if opts.includeRequestTypeInResponse then setProp m "_requestType" (.num r.type) else m
        (decodeLoop dec opts rs bs).map (m :: ·)
  | [], _ => .ok []
  | _ :: _, [] => .ok []

/-- The status-code classification and response handling of `tryCallRPC`
after the auth-ticket capture (pogobuf.client.js lines 1183-1307), operating
on a state whose session has already absorbed the ticket. On the bootstrap
endpoint: any status other than 53 or a falsy `api_url` is a plain (non-stop)
error; otherwise the endpoint is updated to `https://<api_url>/rpc`, the
envelope's platform requests are cleared and the same requests are
resubmitted. Off the bootstrap endpoint: PTR8 platform returns are absorbed;
status 102 with a login provider re-logs in (new token stored, ticket
cleared in both session and envelope, raw token assigned to `auth_info`) and
resubmits; status 52 resubmits the same envelope after a fixed 2000 ms wait;
status 3, 51 or ≥ 100 rejects with a `StopError` (the missing `return` after
that `reject` is immaterial because a promise settles only once); any other
status besides 1 and 2 rejects with a plain retryable error. On success the
returns are paired against the requests (count mismatch is a plain error),
decoded, optionally Long-converted, and resolved as single response, response
list, or the sentinel `true`. -/
def classifyMain (env : Env) (es1 : ExecState) (requests : List RpcRequest)
    (signedEnvelope : RequestEnvelope) (renv : ResponseEnvelope) : ExecState × StepOut :=
  if renv.status_code == 102 && es1.session.hasLogin then
    ({ es1 with session := { es1.session with
        options := { es1.session.options with authToken := some env.reloginToken }
        authTicket := none } },
      .resubmit 0 { signedEnvelope with
        platform_requests := []
        auth_ticket := none
        auth_info := some (.rawToken env.reloginToken) })
  else if renv.status_code == 52 then
    (es1, .resubmit 2000 { signedEnvelope with platform_requests := [] })
  else if renv.status_code == 3 || renv.status_code == 51 || renv.status_code ≥ 100 then
    (es1, .rejected true (.rpcStatus renv.status_code))
  else if renv.status_code != 2 && renv.status_code != 1 then
    (es1, .rejected false (.rpcStatus renv.status_code))
  else if requests.length != renv.returns.length then
    (es1, .rejected false .countMismatch)
  else
    match decodeLoop env.decode es1.session.options requests renv.returns with
    | .error e => (es1, .rejected true e)
    | .ok responses =>
      (es1, .resolved (mkRpcValue
        (if es1.session.options.automaticLongConversion then responses.map convertLongs
         else responses)))

def classifyResponse (env : Env) (es : ExecState) (requests : List RpcRequest)
    (signedEnvelope : RequestEnvelope) (renv : ResponseEnvelope) : ExecState × StepOut :=
  if es.session.endpoint == INITIAL_ENDPOINT then
    if renv.status_code != 53 then
      (es, .rejected false (.endpointStatus renv.status_code))
    else if ¬ truthyStr renv.api_url then
      (es, .rejected false .endpointMissing)
    else
      ({ es with session :=
          { es.session with endpoint := "https://" ++ renv.api_url.getD "" ++ "/rpc" } },
        .resubmit 0 { signedEnvelope with platform_requests := [] })
  else
    classifyMain env { es with session := applyPtr8Returns es.session renv.platform_returns }
      requests signedEnvelope renv

/-- The response-envelope handling of `tryCallRPC` (pogobuf.client.js
lines 1176-1307): a truthy envelope `error` field rejects with a `StopError`
before the ticket capture; otherwise the refreshed auth ticket, if any, is
stored in the session first, and only then is the status code classified by
`classifyResponse`. -/
def handleEnvelope (env : Env) (es : ExecState) (requests : List RpcRequest)
    (signedEnvelope : RequestEnvelope) (renv : ResponseEnvelope) : ExecState × StepOut :=
  if truthyStr renv.error then
    (es, .rejected true (.envelopeError (renv.error.getD "")))
  else
    classifyResponse env { es with session := captureAuthTicket es.session renv }
      requests signedEnvelope renv

/-- One `tryCallRPC` attempt (pogobuf.client.js lines 1131-1309): build and
sign the envelope (a throw is a `StopError` without a POST), POST it to the
current endpoint (consuming the head of the server script and recording the
transmission), then handle the wire outcome: a connection error is a plain
error; a non-200 HTTP status is a `StopError` for 4xx and a plain error
otherwise; an unparseable body without a partial decode is a `StopError`;
otherwise the (possibly partially) decoded response envelope is handled.
Returns `none` when the server script is exhausted. -/
def tryStep (env : Env) (es : ExecState) (requests : List RpcRequest)
    (envelope? : Option RequestEnvelope) : Option (ExecState × StepOut) :=
  match buildSignedEnvelope env es requests envelope? with
  | (es1, .error e) => some (es1, .rejected true e)
  | (es1, .ok signedEnvelope) =>
    match es1.script with
    | [] => none
    | w :: rest =>
      let es2 := { es1 with
        script := rest
        posts := es1.posts ++ [⟨es1.now, es1.session.endpoint, signedEnvelope⟩] }
      match w with
      | .netErr => some (es2, .rejected false .netError)
      | .http code body =>
        if code != 200 then
          if 400 ≤ code && code < 500 then some (es2, .rejected true (.httpStatus code))
          else some (es2, .rejected false (.httpStatus code))
        else
          match body with
          | .fail => some (es2, .rejected true .parseEnvelope)
          | .ok renv => some (handleEnvelope env es2 requests signedEnvelope renv)
          | .recovered renv => some (handleEnvelope env es2 requests signedEnvelope renv)

/-! ## The retry loop and the `callRPC` recursion

`callRPC` (pogobuf.client.js lines 1100-1121) wraps `tryCallRPC` in a
`bluebird-retry` loop (interval 300 ms, backoff 2, `max_tries = maxTries`),
preceded by the `GET_MAP_OBJECTS` rate-limit gate. The resubmission paths of
`tryCallRPC` resolve with a recursive `callRPC` invocation whose settled
state the enclosing attempt adopts, so a resubmission re-enters the gate and
gets a fresh retry budget, while a `StopError` from anywhere propagates
immediately. The interpreter below makes this recursion explicit, indexed by
fuel; `none` means the fuel or the server script ran out. -/

mutual

/-- One retry-loop attempt: run `tryStep`; a resubmission waits `delayMs`
and adopts the result of a recursive `runCallRPC` on the same requests with
the (mutated) signed envelope. -/
def runAttempt (env : Env) : Nat → ExecState → List RpcRequest → Option RequestEnvelope →
    Option (ExecState × Except (Bool × RpcError) RpcValue)
  | 0, _, _, _ => none
  | fuel + 1, es, requests, envelope? =>
    match tryStep env es requests envelope? with
    | none => none
    | some (es1, .rejected stop e) => some (es1, .error (stop, e))
    | some (es1, .resolved v) => some (es1, .ok v)
    | some (es1, .resubmit d envelope) =>
      runCallRPC env fuel { es1 with now := es1.now + d } requests (some envelope)

/-- The `bluebird-retry` loop (interval 300, backoff 2): a `StopError`
or a success settles immediately; a plain error waits the current
`interval` and retries with the interval doubled while attempts remain.
`triesLeft` starts at `maxTries`, `interval` at 300, so the wait before the
k-th retry is `300 * 2 ^ (k - 1)` ms. -/
def runRetry (env : Env) : Nat → Nat → Int → ExecState → List RpcRequest →
    Option RequestEnvelope → Option (ExecState × Except (Bool × RpcError) RpcValue)
  | 0, _, _, _, _, _ => none
  | fuel + 1, triesLeft, interval, es, requests, envelope? =>
    match runAttempt env fuel es requests envelope? with
    | none => none
    | some (es1, .ok v) => some (es1, .ok v)
    | some (es1, .error (true, e)) => some (es1, .error (true, e))
    | some (es1, .error (false, e)) =>
      if triesLeft ≤ 1 then some (es1, .error (false, e))
      else
        runRetry env fuel (triesLeft - 1) (interval * 2)
          { es1 with now := es1.now + interval } requests envelope?

/-- `callRPC` (pogobuf.client.js lines 1100-1121). If the request list
contains `GET_MAP_OBJECTS`: when the minimum delay since
`lastMapObjectsCall` has not elapsed and throttling is enabled, the call is
suspended for exactly the missing time and then re-entered from the top
(scheduling, outside the retry loop); otherwise `lastMapObjectsCall` is set
to the current time and the call proceeds. Then a single `tryCallRPC` when
`maxTries ≤ 1`, else the retry loop. -/
def runCallRPC (env : Env) : Nat → ExecState → List RpcRequest → Option RequestEnvelope →
    Option (ExecState × Except (Bool × RpcError) RpcValue)
  | 0, _, _, _ => none
  | fuel + 1, es, requests, envelope? =>
    if requests.any (fun r => r.type == GET_MAP_OBJECTS) then
      let delayNeeded := es.session.lastMapObjectsCall + es.session.options.mapObjectsMinDelay - es.now
      if delayNeeded > 0 && es.session.options.mapObjectsThrottling then
        runCallRPC env fuel { es with now := es.now + delayNeeded } requests envelope?
      else
        let es1 := { es with session := { es.session with lastMapObjectsCall := es.now } }
        if es1.session.options.maxTries ≤ 1 then runAttempt env fuel es1 requests envelope?
        else runRetry env fuel es1.session.options.maxTries 300 es1 requests envelope?
    else
      if es.session.options.maxTries ≤ 1 then runAttempt env fuel es requests envelope?
      else runRetry env fuel es.session.options.maxTries 300 es requests envelope?

end

/-! ## Batch builder (pogobuf.client.js lines 173-195, 883-890) -/

/-- `batchStart`: `if (!self.batchRequests) self.batchRequests = []` (an
existing, possibly empty, batch list is kept: an empty array is truthy). -/
def batchStart (st : Session) : Session :=
  match st.batchRequests with
  | none => { st with batchRequests := some [] }
  | some l => { st with batchRequests := some l }

/-- `batchClear`: `delete self.batchRequests`. -/
def batchClear (st : Session) : Session :=
  { st with batchRequests := none }

/-- `callOrChain` (pogobuf.client.js lines 883-890), batch-mode side: in
batch mode the request is appended and no call happens. -/
def chainRequest (st : Session) (r : RpcRequest) : Session :=
  match st.batchRequests with
  | some l => { st with batchRequests := some (l ++ [r]) }
  | none => st

/-- `batchCall` (pogobuf.client.js lines 191-195):
`callRPC(self.batchRequests || [])` followed by `batchClear()`. There is no
empty-batch short-circuit: an empty accumulated list is handed to `callRPC`
like any other. -/
def runBatchCall (env : Env) (fuel : Nat) (es : ExecState) :
    Option (ExecState × Except (Bool × RpcError) RpcValue) :=
  let requests := es.session.batchRequests.getD []
  let es1 := { es with session := batchClear es.session }
  runCallRPC env fuel es1 requests none

/-! ## Concrete fixtures for witnesses and counterexamples -/

/-- A fixed batch of random draws. -/
def testRand : Rand :=
  { msFix := ⟨0, by decide⟩
    accHead := 66
    accIdx := ⟨0, by decide⟩
    unknown2Idx := ⟨0, by decide⟩ }

/-- A concrete environment: every decoder succeeds, producing an object
recording the decoder id and the payload length; the signature provider
returns the sub-request count as its blob. -/
def testEnv : Env :=
  { decode := fun d b => some (.obj [("decoder", .num d), ("len", .num b.length)])
    sign := fun rs => [rs.length]
    reloginToken := "fresh-token"
    rands := fun _ => testRand }

/-- Client options with an auth token supplied. -/
def optionsTok : ClientOptions := { defaultOptions with authToken := some "token123" }

/-- A session mid-way through its life: past the bootstrap redirect, holding
an auth ticket, with a login provider available. -/
def sessionMain : Session :=
  { mkClient optionsTok true with
      endpoint := "https://pgorelease.nianticlabs.com/plfe/123/rpc"
      authTicket := some 77 }

/-- A session still on the bootstrap endpoint, already holding an auth
ticket. -/
def sessionBoot : Session :=
  { mkClient optionsTok false with authTicket := some 5 }

/-- A request that declares a response decoder (`GET_INVENTORY`-shaped). -/
def reqDec : RpcRequest := { type := 4, message := some [9], responseType := some 1 }

/-- A request that declares no response decoder. -/
def reqNoDec : RpcRequest := { type := 5, message := some [8], responseType := none }

/-- A `GET_MAP_OBJECTS` request with a decoder. -/
def reqMap : RpcRequest := { type := GET_MAP_OBJECTS, message := some [7], responseType := some 2 }

/-- A success response envelope with one return payload. -/
def renvOk1 : ResponseEnvelope :=
  { status_code := 1
    request_id := 10
    api_url := none
    auth_ticket := none
    error := none
    returns := [[1, 2]]
    platform_returns := [] }

/-- A success response envelope with no return payloads. -/
def renvOk0 : ResponseEnvelope := { renvOk1 with returns := [] }

/-- A response envelope with a given status code and no returns. -/
def renvStatus (s : Int) : ResponseEnvelope := { renvOk1 with status_code := s, returns := [] }

/-- The bootstrap redirect response: status 53 with a new API URL. -/
def renvRedirect : ResponseEnvelope :=
  { renvOk1 with
      status_code := 53
      api_url := some "pgorelease.nianticlabs.com/plfe/403"
      returns := [] }

/-- An execution state at time 0 with a given session and server script. -/
def mkES (st : Session) (script : List WireResult) : ExecState :=
  { session := st, now := 0, script := script, posts := [], randIdx := 0 }

/-- The number of requests in a list that declare a response decoder. -/
def countDecoders (requests : List RpcRequest) : Nat :=
  (requests.filter fun r => r.responseType.isSome).length

/-- The order-preserving request/response pairing the success path produces:
requests zipped with returns in order, requests without a decoder skipped,
each decoded payload optionally marked with its request type. -/
def expectedResponses (dec : Nat → List Nat → Option JsVal) (opts : ClientOptions)
    (requests : List RpcRequest) (returns : List (List Nat)) : List JsVal :=
  (requests.zip returns).filterMap fun p =>
    p.1.responseType.bind fun d =>
      (dec d p.2).map fun m =>
        if opts.includeRequestTypeInResponse then setProp m "_requestType" (.num p.1.type) else m

/-! ## Helper lemmas -/

theorem convertLongsFields_eq (fields : List (String × JsVal)) :
    convertLongsFields fields = fields.map fun p => (p.1, convertLongs p.2) := by
  induction fields with
  | nil => rfl
  | cons p rest ih => cases p; simp [convertLongsFields, ih]

theorem convertLongsElems_eq (elems : List JsVal) :
    convertLongsElems elems = elems.map convertLongs := by
  induction elems with
  | nil => rfl
  | cons v rest ih => simp [convertLongsElems, ih]

theorem captureAuthTicket_endpoint (st : Session) (renv : ResponseEnvelope) :
    (captureAuthTicket st renv).endpoint = st.endpoint := by
  unfold captureAuthTicket; cases renv.auth_ticket <;> rfl

theorem captureAuthTicket_options (st : Session) (renv : ResponseEnvelope) :
    (captureAuthTicket st renv).options = st.options := by
  unfold captureAuthTicket; cases renv.auth_ticket <;> rfl

theorem captureAuthTicket_hasLogin (st : Session) (renv : ResponseEnvelope) :
    (captureAuthTicket st renv).hasLogin = st.hasLogin := by
  unfold captureAuthTicket; cases renv.auth_ticket <;> rfl

theorem captureAuthTicket_some (st : Session) (renv : ResponseEnvelope) (t : Nat)
    (h : renv.auth_ticket = some t) :
    captureAuthTicket st renv = { st with authTicket := some t } := by
  unfold captureAuthTicket; rw [h]

theorem applyPtr8Returns_endpoint (prs : List PlatformReturn) (st : Session) :
    (applyPtr8Returns st prs).endpoint = st.endpoint := by
  induction prs generalizing st with
  | nil => rfl
  | cons pr rest ih =>
    unfold applyPtr8Returns at ih ⊢
    simp only [List.foldl_cons]
    rw [ih]
    split <;> try rfl
    split <;> rfl

theorem applyPtr8Returns_options (prs : List PlatformReturn) (st : Session) :
    (applyPtr8Returns st prs).options = st.options := by
  induction prs generalizing st with
  | nil => rfl
  | cons pr rest ih =>
    unfold applyPtr8Returns at ih ⊢
    simp only [List.foldl_cons]
    rw [ih]
    split <;> try rfl
    split <;> rfl

theorem applyPtr8Returns_authTicket (prs : List PlatformReturn) (st : Session) :
    (applyPtr8Returns st prs).authTicket = st.authTicket := by
  induction prs generalizing st with
  | nil => rfl
  | cons pr rest ih =>
    unfold applyPtr8Returns at ih ⊢
    simp only [List.foldl_cons]
    rw [ih]
    split <;> try rfl
    split <;> rfl

theorem applyPtr8Returns_hasLogin (prs : List PlatformReturn) (st : Session) :
    (applyPtr8Returns st prs).hasLogin = st.hasLogin := by
  induction prs generalizing st with
  | nil => rfl
  | cons pr rest ih =>
    unfold applyPtr8Returns at ih ⊢
    simp only [List.foldl_cons]
    rw [ih]
    split <;> try rfl
    split <;> rfl

theorem applyPtr8Returns_lastMapObjectsCall (prs : List PlatformReturn) (st : Session) :
    (applyPtr8Returns st prs).lastMapObjectsCall = st.lastMapObjectsCall := by
  induction prs generalizing st with
  | nil => rfl
  | cons pr rest ih =>
    unfold applyPtr8Returns at ih ⊢
    simp only [List.foldl_cons]
    rw [ih]
    split <;> try rfl
    split <;> rfl

theorem needsPtr8_endpoint (st : Session) (requests : List RpcRequest) :
    (needsPtr8 st requests).1.endpoint = st.endpoint := by
  unfold needsPtr8; split_ifs <;> rfl

theorem needsPtr8_options (st : Session) (requests : List RpcRequest) :
    (needsPtr8 st requests).1.options = st.options := by
  unfold needsPtr8; split_ifs <;> rfl

theorem needsPtr8_authTicket (st : Session) (requests : List RpcRequest) :
    (needsPtr8 st requests).1.authTicket = st.authTicket := by
  unfold needsPtr8; split_ifs <;> rfl

theorem needsPtr8_lastMapObjectsCall (st : Session) (requests : List RpcRequest) :
    (needsPtr8 st requests).1.lastMapObjectsCall = st.lastMapObjectsCall := by
  unfold needsPtr8; split_ifs <;> rfl

/-- The envelope `buildEnvelope` produces when the session holds auth
ticket `t`. -/
def ticketEnvelope (st : Session) (rnd : Rand) (requests : List RpcRequest) (t : Nat) :
    RequestEnvelope :=
  { status_code := 2
    request_id := (st.rpcId, lehmerNextInt st.lehmerSeed)
    ms_since_last_locationfix := 100 + rnd.msFix.val
    latitude := if truthyInt st.playerLatitude then st.playerLatitude else none
    longitude := if truthyInt st.playerLongitude then st.playerLongitude else none
    accuracy :=
      if truthyInt st.playerLocationAccuracy then orZero st.playerLocationAccuracy
      else (rnd.accHead :: accuracyValues).getD rnd.accIdx.val 0
    auth_ticket := some t
    auth_info := none
    requests := requests.map fun r => { request_type := r.type, request_message := r.message }
    platform_requests := [] }

/-- When the session holds an auth ticket, `buildEnvelope` succeeds, attaches
the ticket, omits `auth_info`, and only advances the request-id counters. -/
theorem buildEnvelope_ticket (st : Session) (rnd : Rand) (requests : List RpcRequest)
    (t : Nat) (h : st.authTicket = some t) :
    buildEnvelope st rnd requests =
      ({ st with rpcId := st.rpcId + 1, lehmerSeed := lehmerNextInt st.lehmerSeed },
        .ok (ticketEnvelope st rnd requests t)) := by
  unfold buildEnvelope getRequestID ticketEnvelope
  simp [h]

theorem countDecoders_nil : countDecoders [] = 0 := rfl

theorem countDecoders_cons (r : RpcRequest) (rest : List RpcRequest) :
    countDecoders (r :: rest) =
      (if r.responseType.isSome then 1 else 0) + countDecoders rest := by
  simp only [countDecoders, List.filter_cons]
  split <;> simp [Nat.add_comm]

/-- A successful run of the pairing loop produces exactly the
order-preserving pairing of decoder-declaring requests with their returns. -/
theorem decodeLoop_ok_eq (dec : Nat → List Nat → Option JsVal) (opts : ClientOptions)
    (requests : List RpcRequest) (returns : List (List Nat)) (rs : List JsVal)
    (h : decodeLoop dec opts requests returns = .ok rs) :
    rs = expectedResponses dec opts requests returns := by
  induction requests generalizing returns rs with
  | nil =>
    simp only [decodeLoop] at h
    cases h
    simp [expectedResponses]
  | cons r rest ih =>
    cases returns with
    | nil =>
      simp only [decodeLoop] at h
      cases h
      simp [expectedResponses]
    | cons b bs =>
      simp only [decodeLoop] at h
      simp only [expectedResponses, List.zip_cons_cons, List.filterMap_cons]
      cases hrt : r.responseType with
      | none =>
        simp only [hrt] at h
        simpa [expectedResponses] using ih bs rs h
      | some d =>
        simp only [hrt] at h
        cases hd : dec d b with
        | none => exact absurd h (by simp [hd])
        | some m =>
          simp only [hd] at h
          cases hrec : decodeLoop dec opts rest bs with
          | error e => exact absurd h (by simp [hrec, Except.map])
          | ok tail =>
            simp only [hrec, Except.map, Except.ok.injEq] at h
            cases h
            simp [Option.bind, hd, expectedResponses, ih bs tail hrec]

/-- When the count guard has passed, a successful pairing yields as many
decoded responses as there are decoder-declaring requests. -/
theorem decodeLoop_ok_length (dec : Nat → List Nat → Option JsVal) (opts : ClientOptions)
    (requests : List RpcRequest) (returns : List (List Nat)) (rs : List JsVal)
    (hlen : requests.length = returns.length)
    (h : decodeLoop dec opts requests returns = .ok rs) :
    rs.length = countDecoders requests := by
  induction requests generalizing returns rs with
  | nil =>
    simp only [decodeLoop] at h
    cases h
    rfl
  | cons r rest ih =>
    cases returns with
    | nil => simp at hlen
    | cons b bs =>
      simp only [List.length_cons, Nat.succ.injEq] at hlen
      simp only [decodeLoop] at h
      cases hrt : r.responseType with
      | none =>
        simp only [hrt] at h
        rw [countDecoders_cons, hrt]
        simpa using ih bs rs hlen h
      | some d =>
        simp only [hrt] at h
        cases hd : dec d b with
        | none => exact absurd h (by simp [hd])
        | some m =>
          simp only [hd] at h
          cases hrec : decodeLoop dec opts rest bs with
          | error e => exact absurd h (by simp [hrec, Except.map])
          | ok tail =>
            simp only [hrec, Except.map, Except.ok.injEq] at h
            cases h
            rw [countDecoders_cons, hrt]
            simp [ih bs tail hlen hrec, Nat.add_comm]

/-- Without a truthy envelope `error`, `tryCallRPC`'s response handling is
the status-code classification applied to the session that has already
absorbed the refreshed auth ticket. -/
theorem handleEnvelope_noError (env : Env) (es : ExecState) (requests : List RpcRequest)
    (senv : RequestEnvelope) (renv : ResponseEnvelope)
    (herr : truthyStr renv.error = false) :
    handleEnvelope env es requests senv renv =
      classifyResponse env { es with session := captureAuthTicket es.session renv }
        requests senv renv := by
  simp [handleEnvelope, herr]

/-- Off the bootstrap endpoint, the classification runs on the state that
has absorbed the PTR8 platform returns. -/
theorem classifyResponse_offBoot (env : Env) (es : ExecState)
    (requests : List RpcRequest) (senv : RequestEnvelope) (renv : ResponseEnvelope)
    (hend : es.session.endpoint ≠ INITIAL_ENDPOINT) :
    classifyResponse env es requests senv renv =
      classifyMain env { es with session := applyPtr8Returns es.session renv.platform_returns }
        requests senv renv := by
  unfold classifyResponse
  rw [if_neg (by simp [hend])]

/-- On the bootstrap endpoint, any status other than 53 rejects with a plain
(retryable) endpoint-fetch error. -/
theorem classifyResponse_bootstrapFail (env : Env) (es : ExecState)
    (requests : List RpcRequest) (senv : RequestEnvelope) (renv : ResponseEnvelope)
    (hend : es.session.endpoint = INITIAL_ENDPOINT)
    (hs : renv.status_code ≠ 53) :
    classifyResponse env es requests senv renv =
      (es, .rejected false (.endpointStatus renv.status_code)) := by
  unfold classifyResponse
  rw [if_pos (by simp [hend]), if_pos (by simp [hs])]

/-- On the bootstrap endpoint, status 53 with a truthy `api_url` adopts the
new endpoint, clears the envelope's platform requests, and resubmits. -/
theorem classifyResponse_redirect (env : Env) (es : ExecState)
    (requests : List RpcRequest) (senv : RequestEnvelope) (renv : ResponseEnvelope)
    (hend : es.session.endpoint = INITIAL_ENDPOINT)
    (hs : renv.status_code = 53)
    (hurl : truthyStr renv.api_url = true) :
    classifyResponse env es requests senv renv =
      ({ es with session :=
          { es.session with endpoint := "https://" ++ renv.api_url.getD "" ++ "/rpc" } },
        .resubmit 0 { senv with platform_requests := [] }) := by
  unfold classifyResponse
  rw [if_pos (by simp [hend]), if_neg (by simp [hs]), if_neg (by simp [hurl])]

/-- Status 3, 51, or any code at or above 100 outside the auto-relogin case
rejects with a `StopError`. -/
theorem classifyMain_fatalStatus (env : Env) (es1 : ExecState)
    (requests : List RpcRequest) (senv : RequestEnvelope) (renv : ResponseEnvelope)
    (hs : renv.status_code = 3 ∨ renv.status_code = 51 ∨ 100 ≤ renv.status_code)
    (h102 : ¬(renv.status_code = 102 ∧ es1.session.hasLogin = true)) :
    classifyMain env es1 requests senv renv =
      (es1, .rejected true (.rpcStatus renv.status_code)) := by
  have h52 : renv.status_code ≠ 52 := by rcases hs with h | h | h <;> omega
  unfold classifyMain
  rw [if_neg (by simp only [Bool.and_eq_true, beq_iff_eq]; exact h102),
    if_neg (by simp [h52]),
    if_pos (by simp only [Bool.or_eq_true, beq_iff_eq, decide_eq_true_eq]; omega)]

/-- Corresponding fact about the full classification. -/
theorem classifyResponse_fatalStatus (env : Env) (es : ExecState)
    (requests : List RpcRequest) (senv : RequestEnvelope) (renv : ResponseEnvelope)
    (hend : es.session.endpoint ≠ INITIAL_ENDPOINT)
    (hs : renv.status_code = 3 ∨ renv.status_code = 51 ∨ 100 ≤ renv.status_code)
    (h102 : ¬(renv.status_code = 102 ∧ es.session.hasLogin = true)) :
    classifyResponse env es requests senv renv =
      ({ es with session := applyPtr8Returns es.session renv.platform_returns },
        .rejected true (.rpcStatus renv.status_code)) := by
  rw [classifyResponse_offBoot env es requests senv renv hend]
  exact classifyMain_fatalStatus env _ requests senv renv hs
    (by rwa [show ({ es with session := applyPtr8Returns es.session renv.platform_returns } :
        ExecState).session.hasLogin = es.session.hasLogin
      from applyPtr8Returns_hasLogin _ _])

/-- A status code other than 1, 2, 52, 3, 51 and below 100 rejects with a
plain (retryable) error. -/
theorem classifyMain_transient (env : Env) (es1 : ExecState)
    (requests : List RpcRequest) (senv : RequestEnvelope) (renv : ResponseEnvelope)
    (hs1 : renv.status_code ≠ 1) (hs2 : renv.status_code ≠ 2)
    (hs52 : renv.status_code ≠ 52) (hs3 : renv.status_code ≠ 3)
    (hs51 : renv.status_code ≠ 51) (hlt : renv.status_code < 100) :
    classifyMain env es1 requests senv renv =
      (es1, .rejected false (.rpcStatus renv.status_code)) := by
  unfold classifyMain
  rw [if_neg (by simp only [Bool.and_eq_true, beq_iff_eq]; intro h; omega),
    if_neg (by simp [hs52]),
    if_neg (by simp only [Bool.or_eq_true, beq_iff_eq, decide_eq_true_eq]; omega),
    if_pos (by simp only [Bool.and_eq_true, bne_iff_ne]; exact ⟨hs2, hs1⟩)]

/-- Corresponding fact about the full classification. -/
theorem classifyResponse_transient (env : Env) (es : ExecState)
    (requests : List RpcRequest) (senv : RequestEnvelope) (renv : ResponseEnvelope)
    (hend : es.session.endpoint ≠ INITIAL_ENDPOINT)
    (hs1 : renv.status_code ≠ 1) (hs2 : renv.status_code ≠ 2)
    (hs52 : renv.status_code ≠ 52) (hs3 : renv.status_code ≠ 3)
    (hs51 : renv.status_code ≠ 51) (hlt : renv.status_code < 100) :
    classifyResponse env es requests senv renv =
      ({ es with session := applyPtr8Returns es.session renv.platform_returns },
        .rejected false (.rpcStatus renv.status_code)) := by
  rw [classifyResponse_offBoot env es requests senv renv hend]
  exact classifyMain_transient env _ requests senv renv hs1 hs2 hs52 hs3 hs51 hlt

/-- With a success status, a return count that differs from the total
request count rejects with a plain (retryable) count mismatch. -/
theorem classifyMain_countMismatch (env : Env) (es1 : ExecState)
    (requests : List RpcRequest) (senv : RequestEnvelope) (renv : ResponseEnvelope)
    (hs : renv.status_code = 1 ∨ renv.status_code = 2)
    (hlen : requests.length ≠ renv.returns.length) :
    classifyMain env es1 requests senv renv =
      (es1, .rejected false .countMismatch) := by
  unfold classifyMain
  rw [if_neg (by simp only [Bool.and_eq_true, beq_iff_eq]; intro h; omega),
    if_neg (by simp only [beq_iff_eq]; omega),
    if_neg (by simp only [Bool.or_eq_true, beq_iff_eq, decide_eq_true_eq]; omega),
    if_neg (by simp only [Bool.and_eq_true, bne_iff_ne, not_and_or, not_not]; omega),
    if_pos (by simp only [bne_iff_ne]; exact hlen)]

/-- Corresponding fact about the full classification. -/
theorem classifyResponse_countMismatch (env : Env) (es : ExecState)
    (requests : List RpcRequest) (senv : RequestEnvelope) (renv : ResponseEnvelope)
    (hend : es.session.endpoint ≠ INITIAL_ENDPOINT)
    (hs : renv.status_code = 1 ∨ renv.status_code = 2)
    (hlen : requests.length ≠ renv.returns.length) :
    classifyResponse env es requests senv renv =
      ({ es with session := applyPtr8Returns es.session renv.platform_returns },
        .rejected false .countMismatch) := by
  rw [classifyResponse_offBoot env es requests senv renv hend]
  exact classifyMain_countMismatch env _ requests senv renv hs hlen

/-- With a success status and matching counts, a successful pairing resolves
with the (optionally Long-converted) decoded responses. -/
theorem classifyMain_success (env : Env) (es1 : ExecState)
    (requests : List RpcRequest) (senv : RequestEnvelope) (renv : ResponseEnvelope)
    (rs : List JsVal)
    (hs : renv.status_code = 1 ∨ renv.status_code = 2)
    (hlen : requests.length = renv.returns.length)
    (hdec : decodeLoop env.decode es1.session.options requests renv.returns = .ok rs) :
    classifyMain env es1 requests senv renv =
      (es1, .resolved (mkRpcValue
        (if es1.session.options.automaticLongConversion then rs.map convertLongs else rs))) := by
  unfold classifyMain
  rw [if_neg (by simp only [Bool.and_eq_true, beq_iff_eq]; intro h; omega),
    if_neg (by simp only [beq_iff_eq]; omega),
    if_neg (by simp only [Bool.or_eq_true, beq_iff_eq, decide_eq_true_eq]; omega),
    if_neg (by simp only [Bool.and_eq_true, bne_iff_ne, not_and_or, not_not]; omega),
    if_neg (by simp only [bne_iff_ne, ne_eq, not_not]; exact hlen), hdec]

/-- Corresponding fact about the full classification, with the pairing loop
stated over the pre-classification options (the PTR8 absorption does not
touch the options). -/
theorem classifyResponse_success (env : Env) (es : ExecState)
    (requests : List RpcRequest) (senv : RequestEnvelope) (renv : ResponseEnvelope)
    (rs : List JsVal)
    (hend : es.session.endpoint ≠ INITIAL_ENDPOINT)
    (hs : renv.status_code = 1 ∨ renv.status_code = 2)
    (hlen : requests.length = renv.returns.length)
    (hdec : decodeLoop env.decode es.session.options requests renv.returns = .ok rs) :
    classifyResponse env es requests senv renv =
      ({ es with session := applyPtr8Returns es.session renv.platform_returns },
        .resolved (mkRpcValue
          (if es.session.options.automaticLongConversion then rs.map convertLongs else rs))) := by
  rw [classifyResponse_offBoot env es requests senv renv hend]
  have hopts : ({ es with session := applyPtr8Returns es.session renv.platform_returns } :
      ExecState).session.options = es.session.options := applyPtr8Returns_options _ _
  rw [classifyMain_success env _ requests senv renv rs hs hlen (by rwa [hopts]), hopts]

/-- The status-code classification never un-stores an auth ticket except in
the status-102 auto-relogin branch, which deliberately clears it to force
re-authentication. -/
theorem classifyResponse_authTicket (env : Env) (es : ExecState)
    (requests : List RpcRequest) (senv : RequestEnvelope) (renv : ResponseEnvelope)
    (h102 : ¬(renv.status_code = 102 ∧ es.session.hasLogin = true)) :
    (classifyResponse env es requests senv renv).1.session.authTicket =
      es.session.authTicket := by
  unfold classifyResponse
  split_ifs with h1 h2 h3
  · rfl
  · rfl
  · rfl
  · unfold classifyMain
    split_ifs with h4 h5 h6 h7 h8 h9 <;>
      first
        | exact absurd (by simpa [applyPtr8Returns_hasLogin] using h4) h102
        | exact applyPtr8Returns_authTicket _ _
        | (split <;> exact applyPtr8Returns_authTicket _ _)

/-- Off the bootstrap endpoint the classification never reassigns the
session's endpoint: only the bootstrap redirect branch does. -/
theorem classifyResponse_endpoint (env : Env) (es : ExecState)
    (requests : List RpcRequest) (senv : RequestEnvelope) (renv : ResponseEnvelope)
    (hend : es.session.endpoint ≠ INITIAL_ENDPOINT) :
    (classifyResponse env es requests senv renv).1.session.endpoint =
      es.session.endpoint := by
  rw [classifyResponse_offBoot env es requests senv renv hend]
  unfold classifyMain
  split_ifs <;>
    first
      | exact applyPtr8Returns_endpoint _ _
      | (split <;> exact applyPtr8Returns_endpoint _ _)

/-! ## Run-level unfolding lemmas -/

/-- Without a `GET_MAP_OBJECTS` request the rate-limit gate is skipped and
the call goes straight to the retry wrapper (single attempt when
`maxTries ≤ 1`). -/
theorem runCallRPC_noMap (env : Env) (fuel : Nat) (es : ExecState)
    (requests : List RpcRequest) (envelope? : Option RequestEnvelope)
    (hmap : (requests.any fun r => r.type == GET_MAP_OBJECTS) = false) :
    runCallRPC env (fuel + 1) es requests envelope? =
      if es.session.options.maxTries ≤ 1 then runAttempt env fuel es requests envelope?
      else runRetry env fuel es.session.options.maxTries 300 es requests envelope? := by
  simp [runCallRPC, hmap]

/-- With a `GET_MAP_OBJECTS` request, throttling enabled, and the minimum
delay not yet elapsed, the call is suspended exactly until the deadline
`lastMapObjectsCall + mapObjectsMinDelay` and then re-entered from the top,
with the whole retry budget still available. -/
theorem runCallRPC_gate_wait (env : Env) (fuel : Nat) (es : ExecState)
    (requests : List RpcRequest) (envelope? : Option RequestEnvelope)
    (hmap : (requests.any fun r => r.type == GET_MAP_OBJECTS) = true)
    (hthr : es.session.options.mapObjectsThrottling = true)
    (hdel : es.now < es.session.lastMapObjectsCall + es.session.options.mapObjectsMinDelay) :
    runCallRPC env (fuel + 1) es requests envelope? =
      runCallRPC env fuel
        { es with now := es.session.lastMapObjectsCall + es.session.options.mapObjectsMinDelay }
        requests envelope? := by
  have harith :
      es.now + (es.session.lastMapObjectsCall + es.session.options.mapObjectsMinDelay - es.now) =
        es.session.lastMapObjectsCall + es.session.options.mapObjectsMinDelay := by ring
  simp only [runCallRPC, hmap, if_true]
  rw [if_pos (by simp only [Bool.and_eq_true, decide_eq_true_eq]; exact ⟨by omega, hthr⟩),
    harith]

/-- With a `GET_MAP_OBJECTS` request whose minimum delay has already
elapsed, the gate records the current time as `lastMapObjectsCall` and the
call proceeds to the retry wrapper. -/
theorem runCallRPC_gate_pass (env : Env) (fuel : Nat) (es : ExecState)
    (requests : List RpcRequest) (envelope? : Option RequestEnvelope)
    (hmap : (requests.any fun r => r.type == GET_MAP_OBJECTS) = true)
    (hdel : es.session.lastMapObjectsCall + es.session.options.mapObjectsMinDelay ≤ es.now) :
    runCallRPC env (fuel + 1) es requests envelope? =
      if es.session.options.maxTries ≤ 1 then
        runAttempt env fuel { es with session := { es.session with lastMapObjectsCall := es.now } }
          requests envelope?
      else
        runRetry env fuel es.session.options.maxTries 300
          { es with session := { es.session with lastMapObjectsCall := es.now } }
          requests envelope? := by
  simp only [runCallRPC, hmap, if_true]
  rw [if_neg (by simp only [Bool.and_eq_true, decide_eq_true_eq, not_and]; intro hc; omega)]

/-- A rejected attempt settles the attempt promise with the error and the
`StopError` flag. -/
theorem runAttempt_rejected (env : Env) (fuel : Nat) (es : ExecState)
    (requests : List RpcRequest) (envelope? : Option RequestEnvelope)
    (es1 : ExecState) (stop : Bool) (e : RpcError)
    (h : tryStep env es requests envelope? = some (es1, .rejected stop e)) :
    runAttempt env (fuel + 1) es requests envelope? = some (es1, .error (stop, e)) := by
  simp [runAttempt, h]

/-- A resolved attempt settles the attempt promise with the value. -/
theorem runAttempt_resolved (env : Env) (fuel : Nat) (es : ExecState)
    (requests : List RpcRequest) (envelope? : Option RequestEnvelope)
    (es1 : ExecState) (v : RpcValue)
    (h : tryStep env es requests envelope? = some (es1, .resolved v)) :
    runAttempt env (fuel + 1) es requests envelope? = some (es1, .ok v) := by
  simp [runAttempt, h]

/-- A resubmitting attempt waits the prescribed delay and adopts the result
of a recursive `callRPC` on the same requests with the mutated envelope. -/
theorem runAttempt_resubmit (env : Env) (fuel : Nat) (es : ExecState)
    (requests : List RpcRequest) (envelope? : Option RequestEnvelope)
    (es1 : ExecState) (d : Int) (envelope : RequestEnvelope)
    (h : tryStep env es requests envelope? = some (es1, .resubmit d envelope)) :
    runAttempt env (fuel + 1) es requests envelope? =
      runCallRPC env fuel { es1 with now := es1.now + d } requests (some envelope) := by
  simp [runAttempt, h]

/-- A successful attempt ends the retry loop at once. -/
theorem runRetry_ok (env : Env) (fuel tries : Nat) (interval : Int) (es : ExecState)
    (requests : List RpcRequest) (envelope? : Option RequestEnvelope)
    (es1 : ExecState) (v : RpcValue)
    (h : runAttempt env fuel es requests envelope? = some (es1, .ok v)) :
    runRetry env (fuel + 1) tries interval es requests envelope? = some (es1, .ok v) := by
  simp [runRetry, h]

/-- A `StopError` ends the retry loop at once, regardless of the remaining
budget. -/
theorem runRetry_stop (env : Env) (fuel tries : Nat) (interval : Int) (es : ExecState)
    (requests : List RpcRequest) (envelope? : Option RequestEnvelope)
    (es1 : ExecState) (e : RpcError)
    (h : runAttempt env fuel es requests envelope? = some (es1, .error (true, e))) :
    runRetry env (fuel + 1) tries interval es requests envelope? =
      some (es1, .error (true, e)) := by
  simp [runRetry, h]

/-- A plain error with budget remaining waits the backoff delay and
re-enters the loop. -/
theorem runRetry_again (env : Env) (fuel tries : Nat) (interval : Int) (es : ExecState)
    (requests : List RpcRequest) (envelope? : Option RequestEnvelope)
    (es1 : ExecState) (e : RpcError)
    (htries : ¬ tries ≤ 1)
    (h : runAttempt env fuel es requests envelope? = some (es1, .error (false, e))) :
    runRetry env (fuel + 1) tries interval es requests envelope? =
      runRetry env fuel (tries - 1) (interval * 2)
        { es1 with now := es1.now + interval } requests envelope? := by
  simp [runRetry, h, htries]

/-- A plain error with the budget exhausted rejects with the last cause. -/
theorem runRetry_exhausted (env : Env) (fuel tries : Nat) (interval : Int) (es : ExecState)
    (requests : List RpcRequest) (envelope? : Option RequestEnvelope)
    (es1 : ExecState) (e : RpcError)
    (htries : tries ≤ 1)
    (h : runAttempt env fuel es requests envelope? = some (es1, .error (false, e))) :
    runRetry env (fuel + 1) tries interval es requests envelope? =
      some (es1, .error (false, e)) := by
  simp [runRetry, h, htries]

/-! ## Further concrete fixtures -/

/-- `sessionMain` with a given retry budget. -/
def sessMT (m : Nat) : Session := { sessionMain with options := { optionsTok with maxTries := m } }

/-- `sessionMain` with `maxTries = 3`. -/
def sessionMain3 : Session := sessMT 3

/-- `sessionBoot` with `maxTries = 2`. -/
def sessionBoot2 : Session :=
  { sessionBoot with options := { optionsTok with maxTries := 2 } }

/-- A scripted HTTP 200 response with the given protocol status and no
returns. -/
def wStatus (s : Int) : WireResult := .http 200 (.ok (renvStatus s))

/-- A second request with a decoder, of a different type. -/
def reqDec2 : RpcRequest := { type := 6, message := some [3], responseType := some 3 }

/-- A success response with three return payloads. -/
def renvOk3 : ResponseEnvelope := { renvOk1 with returns := [[1, 2], [3], [4, 5, 6]] }

/-- The shape of a resolved value: 0 for the sentinel `true`, 1 for a single
response, 2 for a response list. -/
def rpcValueTag : RpcValue → Nat
  | .sentinelTrue => 0
  | .one _ => 1
  | .many _ => 2

/-- A decidable summary of a finished run: the recorded transmissions (time
and target endpoint), the session's final endpoint, the rejection (if any)
with its `StopError` flag, and the shape of the resolved value (if any). -/
structure RunReport where
  posts : List (Int × String)
  endpoint : String
  failure : Option (Bool × RpcError)
  valueTag : Option Nat
deriving Repr, DecidableEq

/-- Summarize a finished run as a `RunReport`. -/
def runReport (r : Option (ExecState × Except (Bool × RpcError) RpcValue)) :
    Option RunReport :=
  r.map fun p =>
    { posts := p.1.posts.map fun e => (e.time, e.endpoint)
      endpoint := p.1.session.endpoint
      failure :=
        match p.2 with
        | .error be => some be
        | .ok _ => none
      valueTag :=
        match p.2 with
        | .ok v => some (rpcValueTag v)
        | .error _ => none }

/-! ## Claims -/

/-- C10: the default post-processing (`automaticLongConversion`, enabled by
default) converts a 64-bit Long to a native number exactly when it lies in
`[Number.MIN_SAFE_INTEGER, Number.MAX_SAFE_INTEGER]` and to its decimal
string otherwise; non-Long primitives are left unchanged; the conversion
recurses into nested objects (and arrays). -/
theorem c10_convertLongs_spec :
    (∀ n : Int, convertLongs (.long n) =
      if MIN_SAFE_INTEGER ≤ n ∧ n ≤ MAX_SAFE_INTEGER then .num n else .str (toString n)) ∧
    convertLongs .und = .und ∧
    convertLongs .nul = .nul ∧
    (∀ b, convertLongs (.boolean b) = .boolean b) ∧
    (∀ n : Int, convertLongs (.num n) = .num n) ∧
    (∀ s, convertLongs (.str s) = .str s) ∧
    (∀ fields, convertLongs (.obj fields) =
      .obj (fields.map fun p => (p.1, convertLongs p.2))) ∧
    (∀ elems, convertLongs (.arr elems) = .arr (elems.map convertLongs)) ∧
    defaultOptions.automaticLongConversion = true := by
  refine ⟨fun n => ?_, rfl, rfl, fun b => rfl, fun n => rfl, fun s => rfl,
    fun fields => ?_, fun elems => ?_, rfl⟩
  · show convLong n = _
    unfold convLong
    by_cases hc : n ≤ MAX_SAFE_INTEGER ∧ MIN_SAFE_INTEGER ≤ n
    · rw [if_pos hc, if_pos ⟨hc.2, hc.1⟩]
    · rw [if_neg hc, if_neg fun hc2 => hc ⟨hc2.2, hc2.1⟩]
  · rw [show convertLongs (.obj fields) = .obj (convertLongsFields fields) from rfl,
      convertLongsFields_eq]
  · rw [show convertLongs (.arr elems) = .arr (convertLongsElems elems) from rfl,
      convertLongsElems_eq]

/-- C4 counterexample: the claim that an envelope built with the player
location explicitly set to `(0, 0)` is distinguishable from one built with
the location unset is false: `buildEnvelope` populates the location fields
with a falsy-zero test (`if (self.playerLatitude)`), so the two builds
produce identical envelopes (and in both the latitude and longitude fields
are absent). -/
theorem c4_counterexample :
    ({ sessionMain with playerLatitude := some 0, playerLongitude := some 0 } :
        Session).playerLatitude = some 0 ∧
    sessionMain.playerLatitude = none ∧
    (buildEnvelope { sessionMain with playerLatitude := some 0, playerLongitude := some 0 }
        testRand [reqDec]).2 =
      (buildEnvelope sessionMain testRand [reqDec]).2 ∧
    (∀ E, (buildEnvelope sessionMain testRand [reqDec]).2 = .ok E → E.latitude = none) := by
  refine ⟨rfl, rfl, by rfl, fun E h => ?_⟩
  rw [buildEnvelope_ticket sessionMain testRand [reqDec] 77 rfl] at h
  cases h
  rfl

/-- C4 amended: `buildEnvelope` populates the latitude and longitude fields
through a JavaScript falsy test on the stored player coordinates, so a
coordinate is present in the envelope exactly when it is set and non-zero;
consequently an envelope built with location `(0, 0)` explicitly set is
identical to one built with the location unset, not distinguishable from
it. -/
theorem c4_amended (st : Session) (rnd : Rand) (requests : List RpcRequest) :
    (∀ E, (buildEnvelope st rnd requests).2 = .ok E →
      E.latitude = (if truthyInt st.playerLatitude then st.playerLatitude else none) ∧
      E.longitude = (if truthyInt st.playerLongitude then st.playerLongitude else none)) ∧
    (buildEnvelope { st with playerLatitude := some 0, playerLongitude := some 0 }
        rnd requests).2 =
      (buildEnvelope { st with playerLatitude := none, playerLongitude := none }
        rnd requests).2 := by
  constructor
  · intro E h
    unfold buildEnvelope getRequestID at h
    simp only at h
    split at h
    · cases h
    · rename_i heq
      rw [Except.ok.injEq] at h
      cases h
      exact ⟨rfl, rfl⟩
  · unfold buildEnvelope getRequestID
    simp only [truthyInt]
    split
    · rename_i heq
      rw [heq]
    · rename_i heq
      rw [heq]
      simp

/-- Witness for `c4_amended` at a concrete session, request list and random
draw. -/
theorem c4_amended_witness :
    (ticketEnvelope sessionMain testRand [reqDec] 77).latitude =
      (if truthyInt sessionMain.playerLatitude then sessionMain.playerLatitude else none) ∧
    (ticketEnvelope sessionMain testRand [reqDec] 77).longitude =
      (if truthyInt sessionMain.playerLongitude then sessionMain.playerLongitude else none) :=
  (c4_amended sessionMain testRand [reqDec]).1 (ticketEnvelope sessionMain testRand [reqDec] 77)
    (by rw [buildEnvelope_ticket sessionMain testRand [reqDec] 77 rfl])

/-- C9: the session's auth ticket starts as null; a refreshed ticket carried
by a (non-erroneous) response envelope is stored in the session before the
status-code classification runs, whatever the status code, so redirect,
throttle and retry paths all see the freshest credential; outside the
status-102 auto-relogin branch (which deliberately clears the ticket to
force re-authentication) the stored ticket is still present after the
classification; and whenever the session holds an auth ticket,
`buildEnvelope` attaches the ticket to the envelope and omits the
provider/token `auth_info` pair — the two auth forms are mutually
exclusive, the ticket taking precedence. -/
theorem c9_authTicket_lifecycle :
    (∀ opts hl, (mkClient opts hl).authTicket = none) ∧
    (∀ (env : Env) (es : ExecState) (requests : List RpcRequest)
        (senv : RequestEnvelope) (renv : ResponseEnvelope) (t : Nat),
      truthyStr renv.error = false → renv.auth_ticket = some t →
      handleEnvelope env es requests senv renv =
        classifyResponse env { es with session := { es.session with authTicket := some t } }
          requests senv renv) ∧
    (∀ (env : Env) (es : ExecState) (requests : List RpcRequest)
        (senv : RequestEnvelope) (renv : ResponseEnvelope) (t : Nat),
      truthyStr renv.error = false → renv.auth_ticket = some t →
      ¬(renv.status_code = 102 ∧ es.session.hasLogin = true) →
      (handleEnvelope env es requests senv renv).1.session.authTicket = some t) ∧
    (∀ (st : Session) (rnd : Rand) (requests : List RpcRequest) (t : Nat),
      st.authTicket = some t →
      (buildEnvelope st rnd requests).2 = .ok (ticketEnvelope st rnd requests t) ∧
      (ticketEnvelope st rnd requests t).auth_ticket = some t ∧
      (ticketEnvelope st rnd requests t).auth_info = none) := by
  refine ⟨fun opts hl => rfl,
    fun env es requests senv renv t herr ht => ?_,
    fun env es requests senv renv t herr ht h102 => ?_,
    fun st rnd requests t h => ?_⟩
  · rw [handleEnvelope_noError env es requests senv renv herr,
      captureAuthTicket_some es.session renv t ht]
  · rw [handleEnvelope_noError env es requests senv renv herr]
    have h102c : ¬(renv.status_code = 102 ∧
        ({ es with session := captureAuthTicket es.session renv } :
          ExecState).session.hasLogin = true) := by
      simpa [captureAuthTicket_hasLogin] using h102
    rw [classifyResponse_authTicket env _ requests senv renv h102c]
    simp [captureAuthTicket_some es.session renv t ht]
  · rw [buildEnvelope_ticket st rnd requests t h]
    exact ⟨rfl, rfl, rfl⟩

/-- Witness for `c9_authTicket_lifecycle`: a status-3 (fatal) response
carrying ticket 99 still stores the ticket, and envelope building with a
stored ticket attaches it. -/
theorem c9_witness :
    (handleEnvelope testEnv (mkES sessionMain []) [reqDec]
        (ticketEnvelope sessionMain testRand [reqDec] 77)
        { renvStatus 3 with auth_ticket := some 99 }).1.session.authTicket = some 99 ∧
    (buildEnvelope sessionMain testRand [reqDec]).2 =
      .ok (ticketEnvelope sessionMain testRand [reqDec] 77) :=
  ⟨c9_authTicket_lifecycle.2.2.1 testEnv (mkES sessionMain []) [reqDec]
      (ticketEnvelope sessionMain testRand [reqDec] 77)
      { renvStatus 3 with auth_ticket := some 99 } 99 rfl rfl (by decide),
    (c9_authTicket_lifecycle.2.2.2 sessionMain testRand [reqDec] 77 rfl).1⟩

/-- C1: when a call's round trip reaches the success path (status 1 or 2, no
envelope error, off the bootstrap endpoint, matching counts) and every
decoder-declaring request decodes, the resolved value is the single decoded
response if exactly one request declared a decoder, the ordered list of
decoded responses — request order preserved, one entry per decoder-declaring
request — if more than one did, and the sentinel `true` (never an empty
list) if none did. -/
theorem c1_resolution_shape (env : Env) (es : ExecState) (requests : List RpcRequest)
    (senv : RequestEnvelope) (renv : ResponseEnvelope) (rs : List JsVal)
    (herr : truthyStr renv.error = false)
    (hend : es.session.endpoint ≠ INITIAL_ENDPOINT)
    (hs : renv.status_code = 1 ∨ renv.status_code = 2)
    (hlen : requests.length = renv.returns.length)
    (hdec : decodeLoop env.decode es.session.options requests renv.returns = .ok rs) :
    ∃ es1,
      handleEnvelope env es requests senv renv = (es1, .resolved (mkRpcValue
        (if es.session.options.automaticLongConversion then rs.map convertLongs else rs))) ∧
      rs = expectedResponses env.decode es.session.options requests renv.returns ∧
      (if es.session.options.automaticLongConversion then rs.map convertLongs
       else rs).length = countDecoders requests ∧
      (countDecoders requests = 0 →
        mkRpcValue (if es.session.options.automaticLongConversion then rs.map convertLongs
          else rs) = .sentinelTrue) ∧
      (∀ v, (if es.session.options.automaticLongConversion then rs.map convertLongs
          else rs) = [v] →
        mkRpcValue (if es.session.options.automaticLongConversion then rs.map convertLongs
          else rs) = .one v) ∧
      (2 ≤ countDecoders requests →
        mkRpcValue (if es.session.options.automaticLongConversion then rs.map convertLongs
          else rs) = .many (if es.session.options.automaticLongConversion
            then rs.map convertLongs else rs)) := by
  rw [handleEnvelope_noError env es requests senv renv herr]
  have hend2 : ({ es with session := captureAuthTicket es.session renv } :
      ExecState).session.endpoint ≠ INITIAL_ENDPOINT := by
    simpa [captureAuthTicket_endpoint] using hend
  have hopts : ({ es with session := captureAuthTicket es.session renv } :
      ExecState).session.options = es.session.options := captureAuthTicket_options _ _
  have hfin := classifyResponse_success env _ requests senv renv rs hend2 hs hlen
    (by rwa [hopts])
  rw [hopts] at hfin
  have hrslen : rs.length = countDecoders requests :=
    decodeLoop_ok_length env.decode es.session.options requests renv.returns rs hlen hdec
  have hflen : (if es.session.options.automaticLongConversion then rs.map convertLongs
      else rs).length = countDecoders requests := by
    cases hb : es.session.options.automaticLongConversion <;> simp [hb, hrslen]
  refine ⟨_, hfin, decodeLoop_ok_eq env.decode es.session.options requests renv.returns rs hdec,
    hflen, ?_, ?_, ?_⟩
  · intro h0
    have : (if es.session.options.automaticLongConversion then rs.map convertLongs
        else rs) = [] := by
      rw [← List.length_eq_zero]
      omega
    rw [this]
    rfl
  · intro v hv
    rw [hv]
    rfl
  · intro h2
    rcases hl : (if es.session.options.automaticLongConversion then rs.map convertLongs
        else rs) with _ | ⟨a, _ | ⟨b, l⟩⟩
    · rw [hl] at hflen; simp at hflen; omega
    · rw [hl] at hflen; simp at hflen; omega
    · rfl

/-- Witness for `c1_resolution_shape`: three requests, two of which declare
decoders, against a three-return success response. -/
theorem c1_witness :
    ∃ es1,
      handleEnvelope testEnv (mkES sessionMain []) [reqDec, reqNoDec, reqDec2]
        (ticketEnvelope sessionMain testRand [reqDec, reqNoDec, reqDec2] 77) renvOk3 =
        (es1, .resolved (mkRpcValue
          (if sessionMain.options.automaticLongConversion
           then [JsVal.obj [("decoder", .num 1), ("len", .num 2)],
             JsVal.obj [("decoder", .num 3), ("len", .num 3)]].map convertLongs
           else [JsVal.obj [("decoder", .num 1), ("len", .num 2)],
             JsVal.obj [("decoder", .num 3), ("len", .num 3)]]))) ∧
      [JsVal.obj [("decoder", .num 1), ("len", .num 2)],
        JsVal.obj [("decoder", .num 3), ("len", .num 3)]] =
        expectedResponses testEnv.decode sessionMain.options [reqDec, reqNoDec, reqDec2]
          renvOk3.returns ∧
      (if sessionMain.options.automaticLongConversion
       then [JsVal.obj [("decoder", .num 1), ("len", .num 2)],
         JsVal.obj [("decoder", .num 3), ("len", .num 3)]].map convertLongs
       else [JsVal.obj [("decoder", .num 1), ("len", .num 2)],
         JsVal.obj [("decoder", .num 3), ("len", .num 3)]]).length =
        countDecoders [reqDec, reqNoDec, reqDec2] ∧
      (countDecoders [reqDec, reqNoDec, reqDec2] = 0 →
        mkRpcValue (if sessionMain.options.automaticLongConversion
          then [JsVal.obj [("decoder", .num 1), ("len", .num 2)],
            JsVal.obj [("decoder", .num 3), ("len", .num 3)]].map convertLongs
          else [JsVal.obj [("decoder", .num 1), ("len", .num 2)],
            JsVal.obj [("decoder", .num 3), ("len", .num 3)]]) = .sentinelTrue) ∧
      (∀ v, (if sessionMain.options.automaticLongConversion
          then [JsVal.obj [("decoder", .num 1), ("len", .num 2)],
            JsVal.obj [("decoder", .num 3), ("len", .num 3)]].map convertLongs
          else [JsVal.obj [("decoder", .num 1), ("len", .num 2)],
            JsVal.obj [("decoder", .num 3), ("len", .num 3)]]) = [v] →
        mkRpcValue (if sessionMain.options.automaticLongConversion
          then [JsVal.obj [("decoder", .num 1), ("len", .num 2)],
            JsVal.obj [("decoder", .num 3), ("len", .num 3)]].map convertLongs
          else [JsVal.obj [("decoder", .num 1), ("len", .num 2)],
            JsVal.obj [("decoder", .num 3), ("len", .num 3)]]) = .one v) ∧
      (2 ≤ countDecoders [reqDec, reqNoDec, reqDec2] →
        mkRpcValue (if sessionMain.options.automaticLongConversion
          then [JsVal.obj [("decoder", .num 1), ("len", .num 2)],
            JsVal.obj [("decoder", .num 3), ("len", .num 3)]].map convertLongs
          else [JsVal.obj [("decoder", .num 1), ("len", .num 2)],
            JsVal.obj [("decoder", .num 3), ("len", .num 3)]]) =
          .many (if sessionMain.options.automaticLongConversion
            then [JsVal.obj [("decoder", .num 1), ("len", .num 2)],
              JsVal.obj [("decoder", .num 3), ("len", .num 3)]].map convertLongs
            else [JsVal.obj [("decoder", .num 1), ("len", .num 2)],
              JsVal.obj [("decoder", .num 3), ("len", .num 3)]])) :=
  c1_resolution_shape testEnv (mkES sessionMain []) [reqDec, reqNoDec, reqDec2]
    (ticketEnvelope sessionMain testRand [reqDec, reqNoDec, reqDec2] 77) renvOk3
    [JsVal.obj [("decoder", .num 1), ("len", .num 2)],
      JsVal.obj [("decoder", .num 3), ("len", .num 3)]]
    rfl (by decide) (Or.inl rfl) rfl rfl

/-- C2 counterexample: protocol status 51 is not in the claim's classified
set {1, 2, 53, 3, 102, 52}, yet the code does not treat it as transient:
off the bootstrap endpoint a status-51 response rejects with a `StopError`
on the first attempt — a single transmission despite `maxTries = 3` and two
further scripted responses left unconsumed. -/
theorem c2_counterexample :
    runReport (runCallRPC testEnv 12
        (mkES sessionMain3 [wStatus 51, wStatus 51, wStatus 51]) [reqDec] none) =
      some { posts := [(0, "https://pgorelease.nianticlabs.com/plfe/123/rpc")]
             endpoint := "https://pgorelease.nianticlabs.com/plfe/123/rpc"
             failure := some (true, .rpcStatus 51)
             valueTag := none } := by decide

/-- C2 amended: off the bootstrap endpoint, a protocol status code outside
{1, 2, 52} and the auto-relogin case is transient (a plain retryable error
re-entering the outer backoff loop) only when it is also different from 3
and 51 and below 100; status 51 and every code at or above 100 (including
102 without a login provider) are instead classified fatal (`StopError`)
and propagate immediately. A server always answering a transient status
(e.g. 50) is retried until the attempt budget is exhausted: under
`maxTries = 2`, two transmissions 300 ms apart. -/
theorem c2_amended :
    (∀ (env : Env) (es : ExecState) (requests : List RpcRequest)
        (senv : RequestEnvelope) (renv : ResponseEnvelope),
      es.session.endpoint ≠ INITIAL_ENDPOINT →
      truthyStr renv.error = false →
      renv.status_code ≠ 1 → renv.status_code ≠ 2 → renv.status_code ≠ 52 →
      renv.status_code ≠ 3 → renv.status_code ≠ 51 → renv.status_code < 100 →
      ∃ es1, handleEnvelope env es requests senv renv =
        (es1, .rejected false (.rpcStatus renv.status_code))) ∧
    (∀ (env : Env) (es : ExecState) (requests : List RpcRequest)
        (senv : RequestEnvelope) (renv : ResponseEnvelope),
      es.session.endpoint ≠ INITIAL_ENDPOINT →
      truthyStr renv.error = false →
      (renv.status_code = 51 ∨ (100 ≤ renv.status_code ∧
        ¬(renv.status_code = 102 ∧ es.session.hasLogin = true))) →
      ∃ es1, handleEnvelope env es requests senv renv =
        (es1, .rejected true (.rpcStatus renv.status_code))) ∧
    runReport (runCallRPC testEnv 12
        (mkES (sessMT 2) [wStatus 50, wStatus 50]) [reqDec] none) =
      some { posts := [(0, "https://pgorelease.nianticlabs.com/plfe/123/rpc"),
               (300, "https://pgorelease.nianticlabs.com/plfe/123/rpc")]
             endpoint := "https://pgorelease.nianticlabs.com/plfe/123/rpc"
             failure := some (false, .rpcStatus 50)
             valueTag := none } := by
  refine ⟨fun env es requests senv renv hend herr h1 h2 h52 h3 h51 hlt => ?_,
    fun env es requests senv renv hend herr hs => ?_, by decide⟩
  · rw [handleEnvelope_noError env es requests senv renv herr]
    exact ⟨_, classifyResponse_transient env _ requests senv renv
      (by simpa [captureAuthTicket_endpoint] using hend) h1 h2 h52 h3 h51 hlt⟩
  · rw [handleEnvelope_noError env es requests senv renv herr]
    refine ⟨_, classifyResponse_fatalStatus env _ requests senv renv
      (by simpa [captureAuthTicket_endpoint] using hend) ?_ ?_⟩
    · rcases hs with h | h
      · exact Or.inr (Or.inl h)
      · exact Or.inr (Or.inr h.1)
    · rcases hs with h | h
      · rw [h]; rintro ⟨hc, -⟩; omega
      · simpa [captureAuthTicket_hasLogin] using h.2

/-- Witness for `c2_amended`: status 50 is transient, status 51 fatal, at a
concrete state. -/
theorem c2_witness :
    (∃ es1, handleEnvelope testEnv (mkES sessionMain []) [reqDec]
        (ticketEnvelope sessionMain testRand [reqDec] 77) (renvStatus 50) =
      (es1, .rejected false (.rpcStatus 50))) ∧
    (∃ es1, handleEnvelope testEnv (mkES sessionMain []) [reqDec]
        (ticketEnvelope sessionMain testRand [reqDec] 77) (renvStatus 51) =
      (es1, .rejected true (.rpcStatus 51))) :=
  ⟨c2_amended.1 testEnv (mkES sessionMain []) [reqDec]
      (ticketEnvelope sessionMain testRand [reqDec] 77) (renvStatus 50)
      (by decide) rfl (by decide) (by decide) (by decide) (by decide) (by decide) (by decide),
    c2_amended.2.1 testEnv (mkES sessionMain []) [reqDec]
      (ticketEnvelope sessionMain testRand [reqDec] 77) (renvStatus 51)
      (by decide) rfl (Or.inl rfl)⟩

/-- C5 counterexample: the count guard compares the returned payload count
against the total request count, not against the number of decoder-declaring
requests, and rejects with a plain (retryable) error, not a fatal one: with
two requests of which one declares a decoder and a response carrying exactly
one payload (so the claim's counts match), the call still fails with a count
mismatch, and under `maxTries = 2` the mismatch consumes both attempts (two
transmissions) instead of propagating immediately. -/
theorem c5_counterexample :
    countDecoders [reqDec, reqNoDec] = renvOk1.returns.length ∧
    (∃ es1, handleEnvelope testEnv (mkES sessionMain []) [reqDec, reqNoDec]
        (ticketEnvelope sessionMain testRand [reqDec, reqNoDec] 77) renvOk1 =
      (es1, .rejected false .countMismatch)) ∧
    runReport (runCallRPC testEnv 12
        (mkES (sessMT 2) [.http 200 (.ok renvOk1), .http 200 (.ok renvOk1)])
        [reqDec, reqNoDec] none) =
      some { posts := [(0, "https://pgorelease.nianticlabs.com/plfe/123/rpc"),
               (300, "https://pgorelease.nianticlabs.com/plfe/123/rpc")]
             endpoint := "https://pgorelease.nianticlabs.com/plfe/123/rpc"
             failure := some (false, .countMismatch)
             valueTag := none } :=
  ⟨rfl, ⟨_, rfl⟩, by decide⟩

/-- C5 amended: decoding fails with a count-mismatch error when the number
of returned payloads differs from the total number of requests (whether or
not they declared a decoder), and the mismatch is classified as a plain
transient error: it is handed back to the outer retry loop rather than
propagated immediately as fatal. -/
theorem c5_amended (env : Env) (es : ExecState) (requests : List RpcRequest)
    (senv : RequestEnvelope) (renv : ResponseEnvelope)
    (hend : es.session.endpoint ≠ INITIAL_ENDPOINT)
    (herr : truthyStr renv.error = false)
    (hs : renv.status_code = 1 ∨ renv.status_code = 2)
    (hlen : requests.length ≠ renv.returns.length) :
    ∃ es1, handleEnvelope env es requests senv renv =
      (es1, .rejected false .countMismatch) := by
  rw [handleEnvelope_noError env es requests senv renv herr]
  exact ⟨_, classifyResponse_countMismatch env _ requests senv renv
    (by simpa [captureAuthTicket_endpoint] using hend) hs hlen⟩

/-- Witness for `c5_amended` at a concrete state. -/
theorem c5_amended_witness :
    ∃ es1, handleEnvelope testEnv (mkES sessionMain []) [reqDec, reqNoDec]
        (ticketEnvelope sessionMain testRand [reqDec, reqNoDec] 77) renvOk1 =
      (es1, .rejected false .countMismatch) :=
  c5_amended testEnv (mkES sessionMain []) [reqDec, reqNoDec]
    (ticketEnvelope sessionMain testRand [reqDec, reqNoDec] 77) renvOk1
    (by decide) rfl (Or.inl rfl) (by decide)

/-- C7 counterexample: on the bootstrap endpoint a status-3 response is not
a fatal first-attempt rejection: it is an endpoint-fetch failure rejected as
a plain error, and with `maxTries = 2` the call is attempted twice (two
transmissions, 300 ms apart) before rejecting. -/
theorem c7_counterexample :
    sessionBoot2.endpoint = INITIAL_ENDPOINT ∧
    runReport (runCallRPC testEnv 12 (mkES sessionBoot2 [wStatus 3, wStatus 3])
        [reqDec] none) =
      some { posts := [(0, INITIAL_ENDPOINT), (300, INITIAL_ENDPOINT)]
             endpoint := INITIAL_ENDPOINT
             failure := some (false, .endpointStatus 3)
             valueTag := none } :=
  ⟨rfl, by decide⟩

/-- C7 amended: off the bootstrap endpoint, a status-3 response rejects on
the first attempt with a fatal `StopError`, whatever the configured
`maxTries` (only one transmission); on the bootstrap endpoint, however,
status 3 is a plain retryable endpoint-fetch error like every non-53
status. -/
theorem c7_amended :
    (∀ (env : Env) (es : ExecState) (requests : List RpcRequest)
        (senv : RequestEnvelope) (renv : ResponseEnvelope),
      es.session.endpoint ≠ INITIAL_ENDPOINT →
      truthyStr renv.error = false → renv.status_code = 3 →
      ∃ es1, handleEnvelope env es requests senv renv =
        (es1, .rejected true (.rpcStatus 3))) ∧
    (∀ m : Nat, ∃ es1, runCallRPC testEnv 12 (mkES (sessMT m) [wStatus 3]) [reqDec] none =
      some (es1, .error (true, .rpcStatus 3)) ∧ es1.posts.length = 1) ∧
    (∀ (env : Env) (es : ExecState) (requests : List RpcRequest)
        (senv : RequestEnvelope) (renv : ResponseEnvelope),
      es.session.endpoint = INITIAL_ENDPOINT →
      truthyStr renv.error = false → renv.status_code = 3 →
      ∃ es1, handleEnvelope env es requests senv renv =
        (es1, .rejected false (.endpointStatus 3))) := by
  refine ⟨fun env es requests senv renv hend herr hs => ?_, fun m => ?_,
    fun env es requests senv renv hend herr hs => ?_⟩
  · rw [handleEnvelope_noError env es requests senv renv herr]
    have h3 := classifyResponse_fatalStatus env
      { es with session := captureAuthTicket es.session renv } requests senv renv
      (by simpa [captureAuthTicket_endpoint] using hend) (Or.inl hs)
      (by rw [hs]; rintro ⟨hc, -⟩; omega)
    rw [hs] at h3
    exact ⟨_, h3⟩
  · obtain ⟨es1, hstep, hp⟩ :
        ∃ es1, tryStep testEnv (mkES (sessMT m) [wStatus 3]) [reqDec] none =
          some (es1, .rejected true (.rpcStatus 3)) ∧ es1.posts.length = 1 :=
      ⟨_, rfl, rfl⟩
    refine ⟨es1, ?_, hp⟩
    rw [runCallRPC_noMap testEnv 11 _ [reqDec] none rfl]
    by_cases hm : (mkES (sessMT m) [wStatus 3]).session.options.maxTries ≤ 1
    · rw [if_pos hm]
      exact runAttempt_rejected testEnv 10 _ [reqDec] none es1 true (.rpcStatus 3) hstep
    · rw [if_neg hm]
      exact runRetry_stop testEnv 10 _ 300 _ [reqDec] none es1 (.rpcStatus 3)
        (runAttempt_rejected testEnv 9 _ [reqDec] none es1 true (.rpcStatus 3) hstep)
  · rw [handleEnvelope_noError env es requests senv renv herr]
    have h3 := classifyResponse_bootstrapFail env
      { es with session := captureAuthTicket es.session renv } requests senv renv
      (by simpa [captureAuthTicket_endpoint] using hend) (by rw [hs]; omega)
    rw [hs] at h3
    exact ⟨_, h3⟩

/-- Witness for `c7_amended` at a concrete state, off and on the bootstrap
endpoint and at a concrete retry budget. -/
theorem c7_witness :
    (∃ es1, handleEnvelope testEnv (mkES sessionMain []) [reqDec]
        (ticketEnvelope sessionMain testRand [reqDec] 77) (renvStatus 3) =
      (es1, .rejected true (.rpcStatus 3))) ∧
    (∃ es1, runCallRPC testEnv 12 (mkES (sessMT 5) [wStatus 3]) [reqDec] none =
      some (es1, .error (true, .rpcStatus 3)) ∧ es1.posts.length = 1) ∧
    (∃ es1, handleEnvelope testEnv (mkES sessionBoot []) [reqDec]
        (ticketEnvelope sessionBoot testRand [reqDec] 5) (renvStatus 3) =
      (es1, .rejected false (.endpointStatus 3))) :=
  ⟨c7_amended.1 testEnv (mkES sessionMain []) [reqDec]
      (ticketEnvelope sessionMain testRand [reqDec] 77) (renvStatus 3)
      (by decide) rfl rfl,
    c7_amended.2.1 5,
    c7_amended.2.2 testEnv (mkES sessionBoot []) [reqDec]
      (ticketEnvelope sessionBoot testRand [reqDec] 5) (renvStatus 3) rfl rfl rfl⟩


theorem needsPtr8_fst (st : Session) (requests : List RpcRequest) :
    (needsPtr8 st requests).1 = st ∨
      (needsPtr8 st requests).1 = { st with firstGetMapObjects := false } := by
  unfold needsPtr8
  split_ifs <;> simp

/-- With an auth ticket in the session, building and signing a fresh
envelope succeeds; the resulting session only advances the request-id
counters and possibly clears the `firstGetMapObjects` flag. -/
theorem buildSignedEnvelope_ticket (env : Env) (es : ExecState)
    (requests : List RpcRequest) (t : Nat) (h : es.session.authTicket = some t) :
    ∃ st2 E, buildSignedEnvelope env es requests none =
      ({ es with session := st2, randIdx := es.randIdx + 1 }, .ok E) ∧
      st2.endpoint = es.session.endpoint ∧
      st2.options = es.session.options ∧
      st2.authTicket = some t ∧
      st2.lastMapObjectsCall = es.session.lastMapObjectsCall ∧
      st2.batchRequests = es.session.batchRequests ∧
      st2.hasLogin = es.session.hasLogin := by
  have hfst := needsPtr8_fst
    { es.session with
        rpcId := es.session.rpcId + 1
        lehmerSeed := lehmerNextInt es.session.lehmerSeed } requests
  unfold buildSignedEnvelope
  rw [buildEnvelope_ticket es.session (env.rands es.randIdx) requests t h]
  dsimp only
  generalize hnp : needsPtr8
    { es.session with
        rpcId := es.session.rpcId + 1
        lehmerSeed := lehmerNextInt es.session.lehmerSeed } requests = np
  rw [hnp] at hfst
  obtain ⟨st2, b⟩ := np
  rcases hfst with hq | hq <;> (dsimp at hq; subst hq) <;> cases b <;>
    exact ⟨_, _, rfl, rfl, rfl, h, rfl, rfl, rfl⟩


theorem captureAuthTicket_lastMapObjectsCall (st : Session) (renv : ResponseEnvelope) :
    (captureAuthTicket st renv).lastMapObjectsCall = st.lastMapObjectsCall := by
  unfold captureAuthTicket; cases renv.auth_ticket <;> rfl

theorem captureAuthTicket_batchRequests (st : Session) (renv : ResponseEnvelope) :
    (captureAuthTicket st renv).batchRequests = st.batchRequests := by
  unfold captureAuthTicket; cases renv.auth_ticket <;> rfl

theorem applyPtr8Returns_batchRequests (prs : List PlatformReturn) (st : Session) :
    (applyPtr8Returns st prs).batchRequests = st.batchRequests := by
  induction prs generalizing st with
  | nil => rfl
  | cons pr rest ih =>
    unfold applyPtr8Returns at ih ⊢
    simp only [List.foldl_cons]
    rw [ih]
    split <;> try rfl
    split <;> rfl

/-- A fresh attempt from a session holding an auth ticket, whose next
scripted wire result is an HTTP 200 success response with matching counts
and decodable returns: the attempt POSTs once to the current endpoint at
the current model time and resolves with the decoded (optionally
Long-converted) responses; the clock, the endpoint, the options, the
rate-limit timestamp and the batch list are unchanged, and the session
still holds an auth ticket. -/
theorem tryStep_success (env : Env) (es : ExecState) (requests : List RpcRequest)
    (renv : ResponseEnvelope) (rest : List WireResult) (rs : List JsVal) (t : Nat)
    (hscript : es.script = .http 200 (.ok renv) :: rest)
    (hticket : es.session.authTicket = some t)
    (herr : truthyStr renv.error = false)
    (hend : es.session.endpoint ≠ INITIAL_ENDPOINT)
    (hs : renv.status_code = 1 ∨ renv.status_code = 2)
    (hlen : requests.length = renv.returns.length)
    (hdec : decodeLoop env.decode es.session.options requests renv.returns = .ok rs) :
    ∃ es1 E,
      tryStep env es requests none = some (es1, .resolved (mkRpcValue
        (if es.session.options.automaticLongConversion then rs.map convertLongs else rs))) ∧
      es1.posts = es.posts ++ [⟨es.now, es.session.endpoint, E⟩] ∧
      es1.now = es.now ∧
      es1.script = rest ∧
      es1.session.endpoint = es.session.endpoint ∧
      es1.session.options = es.session.options ∧
      (∃ t2, es1.session.authTicket = some t2) ∧
      es1.session.lastMapObjectsCall = es.session.lastMapObjectsCall ∧
      es1.session.batchRequests = es.session.batchRequests := by
  obtain ⟨st2, E0, hbse, hend2, hopts2, htick2, hlast2, hbatch2, hlogin2⟩ :=
    buildSignedEnvelope_ticket env es requests t hticket
  have hstep : tryStep env es requests none =
      some (handleEnvelope env
        { es with
            session := st2
            randIdx := es.randIdx + 1
            script := rest
            posts := es.posts ++ [⟨es.now, st2.endpoint, E0⟩] } requests E0 renv) := by
    unfold tryStep
    rw [hbse]
    dsimp only
    rw [hscript]
    simp
  rw [handleEnvelope_noError env _ requests E0 renv herr] at hstep
  have hc1 : (captureAuthTicket st2 renv).endpoint = es.session.endpoint := by
    rw [captureAuthTicket_endpoint, hend2]
  have hc2 : (captureAuthTicket st2 renv).options = es.session.options := by
    rw [captureAuthTicket_options, hopts2]
  have hcls := classifyResponse_success env
    { es with
        session := captureAuthTicket st2 renv
        randIdx := es.randIdx + 1
        script := rest
        posts := es.posts ++ [⟨es.now, st2.endpoint, E0⟩] } requests E0 renv rs
    (by simpa [hc1] using hend) hs hlen (by rw [hc2]; exact hdec)
  rw [hc2] at hcls
  rw [hcls] at hstep
  refine ⟨_, E0, hstep, ?_, rfl, rfl, ?_, ?_, ?_, ?_, ?_⟩
  · dsimp only
    rw [hend2]
  · dsimp only
    rw [applyPtr8Returns_endpoint, captureAuthTicket_endpoint, hend2]
  · dsimp only
    rw [applyPtr8Returns_options, captureAuthTicket_options, hopts2]
  · dsimp only
    rw [applyPtr8Returns_authTicket]
    cases hat : renv.auth_ticket with
    | some u => exact ⟨u, by rw [captureAuthTicket_some st2 renv u hat]⟩
    | none =>
      refine ⟨t, ?_⟩
      unfold captureAuthTicket
      rw [hat]
      exact htick2
  · dsimp only
    rw [applyPtr8Returns_lastMapObjectsCall, captureAuthTicket_lastMapObjectsCall, hlast2]
  · dsimp only
    rw [applyPtr8Returns_batchRequests, captureAuthTicket_batchRequests, hbatch2]


/-- C3 counterexample: submitting a batch with zero accumulated requests is
not a no-op: the empty request list is handed to the normal RPC path, an
envelope is built, signed and POSTed (one transmission is recorded), and the
sentinel `true` is only resolved after the server answers the empty call
with a success status. -/
theorem c3_counterexample :
    (batchStart sessionMain).batchRequests = some [] ∧
    runReport (runBatchCall testEnv 10
        (mkES (batchStart sessionMain) [.http 200 (.ok renvOk0)])) =
      some { posts := [(0, "https://pgorelease.nianticlabs.com/plfe/123/rpc")]
             endpoint := "https://pgorelease.nianticlabs.com/plfe/123/rpc"
             failure := none
             valueTag := some 0 } :=
  ⟨rfl, by decide⟩

/-- C3 amended: `batchCall` with zero accumulated requests performs a full
RPC round trip with an empty request list — an envelope is built, signed and
POSTed — and resolves with the "no content" sentinel `true` only once the
server answers that call with a success status and an empty return list. -/
theorem c3_amended (env : Env) (es : ExecState) (renv : ResponseEnvelope)
    (rest : List WireResult) (t : Nat) (fuel : Nat)
    (hbatch : es.session.batchRequests = some [])
    (hscript : es.script = .http 200 (.ok renv) :: rest)
    (hticket : es.session.authTicket = some t)
    (herr : truthyStr renv.error = false)
    (hend : es.session.endpoint ≠ INITIAL_ENDPOINT)
    (hs : renv.status_code = 1 ∨ renv.status_code = 2)
    (hret : renv.returns = []) :
    ∃ es1 E, runBatchCall env (fuel + 3) es = some (es1, .ok .sentinelTrue) ∧
      es1.posts = es.posts ++ [⟨es.now, es.session.endpoint, E⟩] := by
  obtain ⟨es1, E, hstep, hposts, -, -, -, -, -, -, -⟩ :=
    tryStep_success env { es with session := batchClear es.session } [] renv rest [] t
      hscript hticket herr hend hs (by rw [hret]; rfl) (by rw [hret]; rfl)
  have hval : (if ({ es with session := batchClear es.session } :
      ExecState).session.options.automaticLongConversion
        then List.map convertLongs [] else ([] : List JsVal)) = [] := by
    split <;> rfl
  rw [hval] at hstep
  refine ⟨es1, E, ?_, hposts⟩
  have hreq : es.session.batchRequests.getD [] = [] := by rw [hbatch]; rfl
  unfold runBatchCall
  dsimp only
  rw [hreq, runCallRPC_noMap env (fuel + 2) _ [] none rfl]
  by_cases hm : ({ es with session := batchClear es.session } :
      ExecState).session.options.maxTries ≤ 1
  · rw [if_pos hm]
    exact runAttempt_resolved env (fuel + 1) _ [] none es1 _ hstep
  · rw [if_neg hm]
    exact runRetry_ok env (fuel + 1) _ 300 _ [] none es1 _
      (runAttempt_resolved env fuel _ [] none es1 _ hstep)

/-- Witness for `c3_amended` at a concrete session and script. -/
theorem c3_amended_witness :
    ∃ es1 E, runBatchCall testEnv 10
        (mkES (batchStart sessionMain) [.http 200 (.ok renvOk0)]) =
      some (es1, .ok .sentinelTrue) ∧
      es1.posts = [] ++ [⟨0, (mkES (batchStart sessionMain) []).session.endpoint, E⟩] :=
  c3_amended testEnv (mkES (batchStart sessionMain) [.http 200 (.ok renvOk0)])
    renvOk0 [] 77 7 rfl rfl rfl rfl (by decide) (Or.inl rfl) rfl


/-- `buildEnvelope` never changes the session endpoint. -/
theorem buildEnvelope_endpoint (st : Session) (rnd : Rand) (requests : List RpcRequest) :
    (buildEnvelope st rnd requests).1.endpoint = st.endpoint := by
  unfold buildEnvelope getRequestID
  dsimp only
  split <;> rfl

/-- C6: when a call on the bootstrap endpoint receives status 53 with a new
API URL, the session's endpoint is updated to `https://<api_url>/rpc`, the
envelope's platform-request list is cleared, and the same envelope is
resubmitted against the new endpoint; in the concrete scenario where the
server answers 53 once and then success, the call completes successfully
after exactly one internal resubmission (two transmissions, the second to
the new endpoint) and the session's endpoint reflects the new value
afterwards; moreover, off the bootstrap endpoint neither the envelope
build/signing step nor the response handling ever reassigns the endpoint,
so subsequent calls keep targeting the adopted endpoint until another
bootstrap redirect changes it. -/
theorem c6_endpoint_redirect :
    runReport (runCallRPC testEnv 10
        (mkES sessionBoot [.http 200 (.ok renvRedirect), .http 200 (.ok renvOk1)])
        [reqDec] none) =
      some { posts := [(0, INITIAL_ENDPOINT),
               (0, "https://pgorelease.nianticlabs.com/plfe/403/rpc")]
             endpoint := "https://pgorelease.nianticlabs.com/plfe/403/rpc"
             failure := none
             valueTag := some 1 } ∧
    (∀ (env : Env) (es : ExecState) (requests : List RpcRequest)
        (senv : RequestEnvelope) (renv : ResponseEnvelope),
      es.session.endpoint = INITIAL_ENDPOINT →
      truthyStr renv.error = false →
      renv.status_code = 53 →
      truthyStr renv.api_url = true →
      handleEnvelope env es requests senv renv =
        ({ es with session :=
            { captureAuthTicket es.session renv with
                endpoint := "https://" ++ renv.api_url.getD "" ++ "/rpc" } },
          .resubmit 0 { senv with platform_requests := [] })) ∧
    (∀ (env : Env) (es : ExecState) (requests : List RpcRequest)
        (senv : RequestEnvelope) (renv : ResponseEnvelope),
      es.session.endpoint ≠ INITIAL_ENDPOINT →
      (handleEnvelope env es requests senv renv).1.session.endpoint =
        es.session.endpoint) ∧
    (∀ (env : Env) (es : ExecState) (requests : List RpcRequest)
        (envelope? : Option RequestEnvelope),
      (buildSignedEnvelope env es requests envelope?).1.session.endpoint =
        es.session.endpoint) := by
  refine ⟨by decide,
    fun env es requests senv renv hend herr hs hurl => ?_,
    fun env es requests senv renv hend => ?_,
    fun env es requests envelope? => ?_⟩
  · rw [handleEnvelope_noError env es requests senv renv herr]
    exact classifyResponse_redirect env _ requests senv renv
      (by simpa [captureAuthTicket_endpoint] using hend) hs hurl
  · unfold handleEnvelope
    by_cases herr : truthyStr renv.error
    · rw [if_pos herr]
    · rw [if_neg herr]
      rw [classifyResponse_endpoint env _ requests senv renv
        (by simpa [captureAuthTicket_endpoint] using hend)]
      exact captureAuthTicket_endpoint es.session renv
  · unfold buildSignedEnvelope
    cases envelope? with
    | some e =>
      dsimp only
      split
      · split
        · exact needsPtr8_endpoint es.session requests
        · exact needsPtr8_endpoint es.session requests
      · split
        · exact needsPtr8_endpoint es.session requests
        · exact needsPtr8_endpoint es.session requests
    | none =>
      dsimp only
      rcases hbe : buildEnvelope es.session (env.rands es.randIdx) requests with ⟨st1, r⟩
      have hst1 : st1.endpoint = es.session.endpoint := by
        have h0 := buildEnvelope_endpoint es.session (env.rands es.randIdx) requests
        rw [hbe] at h0
        exact h0
      cases r with
      | error e => exact hst1
      | ok e =>
        dsimp only
        split
        · split
          · rw [needsPtr8_endpoint]
            exact hst1
          · rw [needsPtr8_endpoint]
            exact hst1
        · split
          · rw [needsPtr8_endpoint]
            exact hst1
          · rw [needsPtr8_endpoint]
            exact hst1

/-- Witness for `c6_endpoint_redirect` at a concrete redirect response and a
concrete non-bootstrap state. -/
theorem c6_witness :
    handleEnvelope testEnv (mkES sessionBoot []) [reqDec]
        (ticketEnvelope sessionBoot testRand [reqDec] 5) renvRedirect =
      ({ mkES sessionBoot [] with session :=
          { captureAuthTicket (mkES sessionBoot []).session renvRedirect with
              endpoint := "https://" ++ renvRedirect.api_url.getD "" ++ "/rpc" } },
        .resubmit 0 { ticketEnvelope sessionBoot testRand [reqDec] 5 with
          platform_requests := [] }) ∧
    (handleEnvelope testEnv (mkES sessionMain []) [reqDec]
        (ticketEnvelope sessionMain testRand [reqDec] 77)
        renvOk1).1.session.endpoint = (mkES sessionMain []).session.endpoint :=
  ⟨c6_endpoint_redirect.2.1 testEnv (mkES sessionBoot []) [reqDec]
      (ticketEnvelope sessionBoot testRand [reqDec] 5) renvRedirect rfl rfl rfl rfl,
    c6_endpoint_redirect.2.2.1 testEnv (mkES sessionMain []) [reqDec]
      (ticketEnvelope sessionMain testRand [reqDec] 77) renvOk1 (by decide)⟩


/-- A post-bootstrap session with throttling enabled, a single attempt
(`maxTries = 1`), and map-objects minimum delay `m`. -/
def sessThr (m : Int) : Session :=
  { sessionMain with options := { optionsTok with maxTries := 1, mapObjectsMinDelay := m } }

/-- An execution state issuing at time `t1` with two scripted successes. -/
def esMap (m t1 : Int) : ExecState :=
  { session := sessThr m
    now := t1
    script := [.http 200 (.ok renvOk1), .http 200 (.ok renvOk1)]
    posts := []
    randIdx := 0 }

/-- A single `GET_MAP_OBJECTS` call whose gate deadline has already passed:
the gate stamps `lastMapObjectsCall := now`, the single attempt resolves,
and the transmission is posted at the current time. -/
theorem runMapCall_pass (env : Env) (fuel : Nat) (es : ExecState)
    (renv : ResponseEnvelope) (rest : List WireResult) (rs : List JsVal) (t : Nat)
    (hmax : es.session.options.maxTries ≤ 1)
    (hdel : es.session.lastMapObjectsCall + es.session.options.mapObjectsMinDelay ≤ es.now)
    (hscript : es.script = .http 200 (.ok renv) :: rest)
    (hticket : es.session.authTicket = some t)
    (herr : truthyStr renv.error = false)
    (hend : es.session.endpoint ≠ INITIAL_ENDPOINT)
    (hs : renv.status_code = 1 ∨ renv.status_code = 2)
    (hlen : ([reqMap] : List RpcRequest).length = renv.returns.length)
    (hdec : decodeLoop env.decode es.session.options [reqMap] renv.returns = .ok rs) :
    ∃ es1 v,
      runCallRPC env (fuel + 2) es [reqMap] none = some (es1, .ok v) ∧
      es1.posts.map (fun p => p.time) = es.posts.map (fun p => p.time) ++ [es.now] ∧
      es1.now = es.now ∧
      es1.script = rest ∧
      es1.session.endpoint = es.session.endpoint ∧
      es1.session.options = es.session.options ∧
      (∃ u, es1.session.authTicket = some u) ∧
      es1.session.lastMapObjectsCall = es.now := by
  obtain ⟨es1, E, hstep, hposts, hnow, hscr, hendp, hopts, htick2, hlast2, hbatch2⟩ :=
    tryStep_success env { es with session := { es.session with lastMapObjectsCall := es.now } }
      [reqMap] renv rest rs t hscript hticket herr hend hs hlen hdec
  have hrun : runCallRPC env (fuel + 1 + 1) es [reqMap] none = some (es1, .ok (mkRpcValue
      (if es.session.options.automaticLongConversion then rs.map convertLongs else rs))) := by
    rw [runCallRPC_gate_pass env (fuel + 1) es [reqMap] none rfl hdel, if_pos hmax]
    exact runAttempt_resolved env fuel _ [reqMap] none es1 _ hstep
  refine ⟨es1, _, hrun, ?_, hnow, hscr, hendp, hopts, htick2, hlast2⟩
  rw [hposts]
  simp

/-- A single `GET_MAP_OBJECTS` call issued before the gate deadline: the
call is suspended exactly until the deadline, then runs and resolves, its
transmission posted at the deadline time. -/
theorem runMapCall_wait (env : Env) (fuel : Nat) (es : ExecState)
    (renv : ResponseEnvelope) (rest : List WireResult) (rs : List JsVal) (t : Nat)
    (hmax : es.session.options.maxTries ≤ 1)
    (hthr : es.session.options.mapObjectsThrottling = true)
    (hwait : es.now < es.session.lastMapObjectsCall + es.session.options.mapObjectsMinDelay)
    (hscript : es.script = .http 200 (.ok renv) :: rest)
    (hticket : es.session.authTicket = some t)
    (herr : truthyStr renv.error = false)
    (hend : es.session.endpoint ≠ INITIAL_ENDPOINT)
    (hs : renv.status_code = 1 ∨ renv.status_code = 2)
    (hlen : ([reqMap] : List RpcRequest).length = renv.returns.length)
    (hdec : decodeLoop env.decode es.session.options [reqMap] renv.returns = .ok rs) :
    ∃ es1 v,
      runCallRPC env (fuel + 3) es [reqMap] none = some (es1, .ok v) ∧
      es1.posts.map (fun p => p.time) =
        es.posts.map (fun p => p.time) ++
          [es.session.lastMapObjectsCall + es.session.options.mapObjectsMinDelay] ∧
      es1.now = es.session.lastMapObjectsCall + es.session.options.mapObjectsMinDelay ∧
      es1.script = rest ∧
      es1.session.endpoint = es.session.endpoint ∧
      es1.session.options = es.session.options ∧
      (∃ u, es1.session.authTicket = some u) ∧
      es1.session.lastMapObjectsCall =
        es.session.lastMapObjectsCall + es.session.options.mapObjectsMinDelay := by
  obtain ⟨es1, v, hrun, hposts, hnow, hscr, hendp, hopts, htick, hlast⟩ :=
    runMapCall_pass env fuel
      { es with now := es.session.lastMapObjectsCall + es.session.options.mapObjectsMinDelay }
      renv rest rs t hmax (le_refl _) hscript hticket herr hend hs hlen hdec
  exact ⟨es1, v,
    (runCallRPC_gate_wait env (fuel + 2) es [reqMap] none rfl hthr hwait).trans hrun,
    hposts, hnow, hscr, hendp, hopts, htick, hlast⟩

/-- C8: (i) for any call whose request list contains the `GET_MAP_OBJECTS`
opcode, with throttling enabled and the minimum delay not yet elapsed since
the last map-objects call, the call is suspended exactly until
`lastMapObjectsCall + mapObjectsMinDelay` and then re-entered from the top
with its full retry budget (it neither fails nor consumes an attempt);
(ii) consequently, for two map-objects calls issued at times `t1` and `t2`
less than the minimum delay `m` apart, both complete successfully and the
second call's network transmission occurs at `t1 + m`, so the two
transmission times are at least `m` apart. -/
theorem c8_map_throttle :
    (∀ (env : Env) (fuel : Nat) (es : ExecState) (requests : List RpcRequest)
        (envelope? : Option RequestEnvelope),
      (requests.any fun r => r.type == GET_MAP_OBJECTS) = true →
      es.session.options.mapObjectsThrottling = true →
      es.now < es.session.lastMapObjectsCall + es.session.options.mapObjectsMinDelay →
      runCallRPC env (fuel + 1) es requests envelope? =
        runCallRPC env fuel
          { es with
              now := es.session.lastMapObjectsCall + es.session.options.mapObjectsMinDelay }
          requests envelope?) ∧
    (∀ (t1 t2 m : Int), m ≤ t1 → t1 ≤ t2 → t2 < t1 + m →
      ∃ es1 es2 v1 v2,
        runCallRPC testEnv 10 (esMap m t1) [reqMap] none = some (es1, .ok v1) ∧
        es1.posts.map (fun p => p.time) = [t1] ∧
        runCallRPC testEnv 10 { es1 with now := t2 } [reqMap] none = some (es2, .ok v2) ∧
        es2.posts.map (fun p => p.time) = [t1, t1 + m] ∧
        (∀ u v, es2.posts.map (fun p => p.time) = [u, v] → u + m ≤ v)) := by
  constructor
  · exact fun env fuel es requests envelope? hmap hthr hdel =>
      runCallRPC_gate_wait env fuel es requests envelope? hmap hthr hdel
  · intro t1 t2 m hm1 h12 h2m
    obtain ⟨rs1, hdec1⟩ :
        ∃ rs, decodeLoop testEnv.decode (esMap m t1).session.options [reqMap]
          renvOk1.returns = .ok rs := ⟨_, rfl⟩
    obtain ⟨es1, v1, hrun1, hposts1, hnow1, hscript1, hend1, hopts1, htick1, hlast1⟩ :=
      runMapCall_pass testEnv 8 (esMap m t1) renvOk1 [.http 200 (.ok renvOk1)] rs1 77
        (le_refl 1)
        (by show (0 : Int) + m ≤ t1
            omega)
        rfl rfl rfl
        (by show ¬ ("https://pgorelease.nianticlabs.com/plfe/123/rpc" : String) =
              INITIAL_ENDPOINT
            decide)
        (Or.inl rfl) rfl hdec1
    obtain ⟨u1, htick1u⟩ := htick1
    have hdec2 : decodeLoop testEnv.decode
        ({ es1 with now := t2 } : ExecState).session.options [reqMap] renvOk1.returns =
          .ok rs1 := by
      show decodeLoop testEnv.decode es1.session.options [reqMap] renvOk1.returns = .ok rs1
      rw [hopts1]
      exact hdec1
    obtain ⟨es2, v2, hrun2, hposts2, hnow2, hscript2, hend2, hopts2, htick2, hlast2⟩ :=
      runMapCall_wait testEnv 7 { es1 with now := t2 } renvOk1 [] rs1 u1
        (by show es1.session.options.maxTries ≤ 1
            rw [hopts1]
            exact le_refl 1)
        (by show es1.session.options.mapObjectsThrottling = true
            rw [hopts1]
            rfl)
        (by show t2 < es1.session.lastMapObjectsCall + es1.session.options.mapObjectsMinDelay
            rw [hlast1, hopts1]
            show t2 < t1 + m
            omega)
        hscript1 htick1u rfl
        (by show ¬ es1.session.endpoint = INITIAL_ENDPOINT
            rw [hend1]
            show ¬ ("https://pgorelease.nianticlabs.com/plfe/123/rpc" : String) =
              INITIAL_ENDPOINT
            decide)
        (Or.inl rfl) rfl hdec2
    have hp1 : es1.posts.map (fun p => p.time) = [t1] := by
      rw [hposts1]
      rfl
    have hp2 : es2.posts.map (fun p => p.time) = [t1, t1 + m] := by
      rw [hposts2]
      show es1.posts.map (fun p => p.time) ++
        [es1.session.lastMapObjectsCall + es1.session.options.mapObjectsMinDelay] =
          [t1, t1 + m]
      rw [hp1, hlast1, hopts1]
      show ([t1] ++ [t1 + m] : List Int) = [t1, t1 + m]
      rfl
    refine ⟨es1, es2, v1, v2, hrun1, hp1, hrun2, hp2, ?_⟩
    intro u v huv
    rw [hp2] at huv
    simp at huv
    omega

/-- Witness for `c8_map_throttle` at `t1 = 6000`, `t2 = 8000`,
`minDelay = 5000`: the second transmission happens at `11000`. -/
theorem c8_witness :
    ∃ es1 es2 v1 v2,
      runCallRPC testEnv 10 (esMap 5000 6000) [reqMap] none = some (es1, .ok v1) ∧
      es1.posts.map (fun p => p.time) = [(6000 : Int)] ∧
      runCallRPC testEnv 10 { es1 with now := 8000 } [reqMap] none = some (es2, .ok v2) ∧
      es2.posts.map (fun p => p.time) = [(6000 : Int), 6000 + 5000] ∧
      (∀ u v, es2.posts.map (fun p => p.time) = [u, v] → u + 5000 ≤ v) :=
  c8_map_throttle.2 6000 8000 5000 (by decide) (by decide) (by decide)

end Pogobuf
